import Mathlib

/-!
Shallow embedding of the three Mari automation scripts of this repository
(`mari_create_new_channels.py`, `mari_group_expose.py`,
`mari_paint_replace.py`) and proofs of the frozen claims about them.

The scripts drive the Mari host application's node-graph API.  The host is
modelled explicitly: the node graph is a value (`PaintReplace.NodeGraph`),
host calls that can raise are driven by oracle functions, and each script
operation is a function from state to state.  Definitions come first, all
theorems follow.
-/

set_option maxHeartbeats 1000000

namespace CreateChannels

/-- A Mari colorspace configuration, restricted to the fields this script
reads or writes: `scalar()`, `raw()`, and the automatic colorspace of the
native stage (`setAutomaticColorspace(COLORSPACE_STAGE_NATIVE, ...)` is the
only stage the script touches). -/
structure CsCfg where
  scalar : Bool
  raw : Bool
  nativeAuto : Option String
deriving DecidableEq, Repr

/-- The channel object carried by a channel node, with the fields set by
`ChannelCreator.create_channel`.  `colorConfig` is the opaque OCIO color
config passed as the `ColorConfig` keyword argument. -/
structure ChannelObj where
  name : String
  width : Nat
  height : Nat
  depth : Nat
  colorConfig : Nat
  csConfig : CsCfg
  scsConfig : CsCfg
deriving DecidableEq, Repr

/-- The host side of `mari`: whether `nodegraph.createChannelNode` succeeds
for a given channel name, the text of the exception it raises on failure,
the current OCIO color config, and the starting colorspace configs the host
assigns to a freshly created channel (the script overwrites their fields). -/
structure Host where
  createOk : String → Bool
  excMsg : String → String
  currentColorConfig : Nat
  initCs : String → CsCfg
  initScs : String → CsCfg

/-- Observable state accumulated by the script: channels created so far,
the names passed to each `createChannelNode` attempt, and the messages
shown through `mari.utils.messageAndLog`. -/
structure St where
  channels : List ChannelObj
  attempts : List String
  messages : List String
deriving DecidableEq, Repr

/-- `ChannelCreator.create_channel`.  On success the node is created with
`(resolution, resolution, bitdepth)` and the channel's configs are then
mutated: `setScalar(create_scalar)` and `setRaw(False)` (both branches of
the `if create_scalar` set raw to False) plus the native automatic
colorspace, then the scalar config gets scalar True, raw True and the same
native colorspace.  On an exception the error message is emitted and
`False` is returned. -/
def create_channel (host : Host) (resolution : Nat) (st : St) (bitdepth : Nat)
    (create_scalar : Bool) (chan_name : String) : Bool × St :=
  let st1 : St := { st with attempts := st.attempts ++ [chan_name] }
  if host.createOk chan_name then
    let colconfig : CsCfg :=
      { host.initCs chan_name with
          scalar := create_scalar
          raw := false
          nativeAuto := some "ACES - ACEScg" }
    let scal_colconfig : CsCfg :=
      { host.initScs chan_name with
          scalar := true
          raw := true
          nativeAuto := some "ACES - ACEScg" }
    let new_channel : ChannelObj :=
      { name := chan_name
        width := resolution
        height := resolution
        depth := bitdepth
        colorConfig := host.currentColorConfig
        csConfig := colconfig
        scsConfig := scal_colconfig }
    (true, { st1 with channels := st1.channels ++ [new_channel] })
  else
    (false, { st1 with
        messages := st1.messages ++
          ["Cannot create the channel " ++ chan_name ++ " : "
            ++ host.excMsg chan_name] })

/-- One `channels_data` entry: `channel_name: [bitdepth, is_scalar]`.
The Python dict is iterated in insertion order, modelled as a list. -/
abbrev Entry := String × Nat × Bool

/-- The loop body of `ChannelCreator.setup`, folded from a given state. -/
def setupFrom (host : Host) (resolution : Nat) (st : St)
    (channels_data : List Entry) : St :=
  channels_data.foldl
    (fun st e => (create_channel host resolution st e.2.1 e.2.2 e.1).2) st

/-- `ChannelCreator.setup`: iterate over `channels_data` and call
`create_channel` for each entry, ignoring its boolean result. -/
def setup (host : Host) (resolution : Nat) (channels_data : List Entry) : St :=
  setupFrom host resolution ⟨[], [], []⟩ channels_data

/-- The channel produced for entry `e` when its creation succeeds. -/
def expectedChannel (host : Host) (resolution : Nat) (e : Entry) : ChannelObj :=
  { name := e.1
    width := resolution
    height := resolution
    depth := e.2.1
    colorConfig := host.currentColorConfig
    csConfig :=
      { host.initCs e.1 with
          scalar := e.2.2, raw := false, nativeAuto := some "ACES - ACEScg" }
    scsConfig :=
      { host.initScs e.1 with
          scalar := true, raw := true, nativeAuto := some "ACES - ACEScg" } }

/-- A concrete host used to witness the create-channel theorems: creation
succeeds for every channel name except `"bad"`. -/
def host0 : Host :=
  { createOk := fun n => n != "bad"
    excMsg := fun _ => "boom"
    currentColorConfig := 7
    initCs := fun _ => ⟨true, true, none⟩
    initScs := fun _ => ⟨false, false, none⟩ }

end CreateChannels

namespace GroupExpose

/-- A node as seen by `mari_group_expose`: its name, `typeID()`, the list
returned by `metadataNames()`, and the `metadataDisplayName` table. -/
structure GNode where
  name : String
  typeID : String
  metadataNames : List String
  metadataDisplay : List (String × String)
deriving DecidableEq, Repr

/-- `node.metadataDisplayName(attr)`: the host's pretty name for the
attribute. -/
def GNode.metadataDisplayName (n : GNode) (attr : String) : String :=
  (((n.metadataDisplay.find? (fun p => p.1 == attr)).map (fun p => p.2)).getD "")

/-- A knob created on the parent group node by
`group_node.createKnob(new_knob_name, source_node, attr_name, pretty)`. -/
structure Knob where
  name : String
  target : GNode
  targetAttr : String
  pretty : String
deriving DecidableEq, Repr

/-- The parent group node's observable state: its knobs, the knob links
made by `linkKnobs(attr, knob_list, pretty)`, and the error lines printed
when `linkKnobs` raises. -/
structure GroupState where
  knobs : List Knob
  links : List (String × List String × String)
  printed : List String
deriving DecidableEq, Repr

/-- The `UserSelAction` constructor of `mari_group_expose`: it reads the
current selection and raises RuntimeError when it is empty, touching
nothing else. -/
def UserSelAction_ctor (selections : List GNode) : Except String (List GNode) :=
  if selections.isEmpty then Except.error "Please select at least one node."
  else Except.ok selections

/-- The TypeError message raised by `check_same_type`. -/
def sameTypeErrMsg (nodeName : String) : String :=
  "[UserSelAction][check_same_type] The node <" ++ nodeName ++
    "> (and maybe other) is not of the same type as other node in selection."

/-- `UserSelAction.check_same_type`: raise TypeError at the first selected
node whose `typeID()` differs from the first node's. -/
def check_same_type : List GNode → Except String Unit
  | [] => Except.error "IndexError"
  | first :: rest =>
    match (first :: rest).find? (fun n => n.typeID != first.typeID) with
    | some bad => Except.error (sameTypeErrMsg bad.name)
    | none => Except.ok ()

/-- The TypeError message raised when the nodegraph has no parent group. -/
def noGroupErrMsg : String :=
  "[UserSelAction][expose_attr_to_parent_group] Current nodegraph is not part of a GroupNode"

/-- Insertion into the `OrderedDict` key sequence: a key already present
keeps its position. -/
def insertKey (ks : List String) (k : String) : List String :=
  if k ∈ ks then ks else ks ++ [k]

/-- The keys of `knob_dict`: the first node's metadata names, skipping
those in `attr_ignore_list` (an empty list behaves like None: no skips),
dedupulated in first-occurrence order. -/
def exposeKeys (first : GNode) (attr_ignore_list : List String) : List String :=
  (first.metadataNames.filter
    (fun a => !(attr_ignore_list.contains a))).foldl insertKey []

/-- Updating a `knob_dict` value: an empty (falsy) list is replaced by a
fresh singleton, otherwise the knob name is appended. -/
def pushKnobName (v : List String) (kn : String) : List String :=
  if v.isEmpty then [kn] else v ++ [kn]

/-- `knob_dict[attr]` update inside the creation loop. -/
def updateDictEntry (d : List (String × List String)) (attr kn : String) :
    List (String × List String) :=
  d.map (fun p => if p.1 == attr then (p.1, pushKnobName p.2 kn) else p)

/-- `group_node.createKnob(kn, node, attr, pretty)`. -/
def createKnob (gs : GroupState) (kn : String) (node : GNode) (attr : String) :
    GroupState :=
  { gs with knobs :=
      gs.knobs ++ [⟨kn, node, attr, node.metadataDisplayName attr⟩] }

/-- The inner creation loop for one selected node: for each dict key create
the knob named `attr ++ "_" ++ index` on the group node and record its name
in `knob_dict`. -/
def knobCreationInner (keys : List String) (index : Nat) (node : GNode)
    (acc : List (String × List String) × GroupState) :
    List (String × List String) × GroupState :=
  keys.foldl
    (fun acc attr =>
      let kn := attr ++ "_" ++ toString index
      (updateDictEntry acc.1 attr kn, createKnob acc.2 kn node attr))
    acc

/-- Python `enumerate` from a starting index. -/
def enumerate : Nat → List α → List (Nat × α)
  | _, [] => []
  | i, a :: as => (i, a) :: enumerate (i + 1) as

/-- The outer creation loop over `enumerate(self.selections)`. -/
def knobCreationLoop (keys : List String) :
    List (String × List String) × GroupState → List (Nat × GNode) →
      List (String × List String) × GroupState
  | acc, [] => acc
  | acc, (i, node) :: rest =>
    knobCreationLoop keys (knobCreationInner keys i node acc) rest

/-- One step of the link loop: `linkKnobs` either succeeds and records the
link, or raises and the handler prints the error. `linkRes attr` is the
host outcome (`none` success, `some excp` exception text). -/
def linkKnobsStep (linkRes : String → Option String) (first : GNode)
    (gs : GroupState) (entry : String × List String) : GroupState :=
  match linkRes entry.1 with
  | none =>
    { gs with links :=
        gs.links ++ [(entry.1, entry.2, first.metadataDisplayName entry.1)] }
  | some e =>
    { gs with printed :=
        gs.printed ++
          ["[ ERROR ][expose_node_attr_to_group]  linkKnobs error: " ++ e] }

/-- `UserSelAction.expose_attr_to_parent_group`: validate the selection and
the parent group, build `knob_dict`, create one knob per (node, attribute)
pair, then link each attribute's knobs.  Returns the possibly updated group
state and the exception raised, if any. -/
def expose_attr_to_parent_group (linkRes : String → Option String)
    (selections : List GNode) (parent : Option GroupState)
    (attr_ignore_list : List String) : Option GroupState × Option String :=
  match check_same_type selections with
  | Except.error e => (parent, some e)
  | Except.ok () =>
    match parent with
    | none => (none, some noGroupErrMsg)
    | some gs0 =>
      match selections with
      | [] => (some gs0, some "IndexError")
      | first :: rest =>
        let keys := exposeKeys first attr_ignore_list
        let d0 := keys.map (fun a => (a, ([] : List String)))
        let dgs := knobCreationLoop keys (d0, gs0) (enumerate 0 (first :: rest))
        let gs2 := dgs.1.foldl (linkKnobsStep linkRes first) dgs.2
        (some gs2, none)

/-- The knob created for a given selected node (at its selection index) and
attribute name. -/
def knobFor (node : GNode) (i : Nat) (attr : String) : Knob :=
  ⟨attr ++ "_" ++ toString i, node, attr, node.metadataDisplayName attr⟩

/-- The knob names accumulated for an attribute after the first `i`
selected nodes have been processed. -/
def rangeNames (a : String) (i : Nat) : List String :=
  (List.range i).map (fun j => a ++ "_" ++ toString j)

/-- Concrete nodes used by the group-expose witnesses. -/
def gnodeA : GNode :=
  { name := "nodeA", typeID := "T", metadataNames := ["x", "y", "skipme"],
    metadataDisplay := [("x", "X pretty"), ("y", "Y pretty")] }

def gnodeB : GNode :=
  { name := "nodeB", typeID := "T", metadataNames := ["x", "z"],
    metadataDisplay := [] }

def gnodeOther : GNode :=
  { name := "nodeC", typeID := "U", metadataNames := [], metadataDisplay := [] }

end GroupExpose

namespace PaintReplace

/-- The channel object behind a channel node, with the fields read or
written by `ChannelAction`: `width()`, `height()`, `depth()`,
`colorspaceConfig()`, `scalarColorspaceConfig()`, `isLocked()`.  `cid`
models Python object identity of the host channel; `content` models the
painted data, `0` being blank.  Colorspace configs and colors are opaque
host values, modelled as numbers. -/
structure Channel where
  cid : Nat
  width : Nat
  height : Nat
  depth : Nat
  csConfig : Nat
  scsConfig : Nat
  locked : Bool
  content : Nat
deriving DecidableEq, Repr

/-- Node payload: a paint node carries size, depth, fill color, colorspace
config and painted content (the script reads a single `size()`, the paint
image being square); a channel node carries its channel; other node types
carry nothing this script reads. -/
inductive Payload where
  | paint (size depth fillColor csConfig content : Nat)
  | channel (ch : Channel)
  | other
deriving DecidableEq, Repr

/-- A node of the Mari nodegraph: identity, `name()`, `typeID()`,
`nodeGraphPosition()` and its payload. -/
structure Node where
  nid : Nat
  name : String
  typeID : String
  pos : Int × Int
  payload : Payload
deriving DecidableEq, Repr

/-- A connection: the edge into input port `dstPort` of node `dst`, coming
from output port `srcPort` of node `src`. -/
structure Edge where
  dst : Nat
  dstPort : String
  src : Nat
  srcPort : String
deriving DecidableEq, Repr

/-- The live nodegraph: nodes, connections, and a fresh-identity counter
for objects the host creates. -/
structure NodeGraph where
  nodes : List Node
  edges : List Edge
  fresh : Nat
deriving DecidableEq, Repr

/-- `typeID()` of a paint node. -/
def paintTypeID : String := "MRI_Misc_Channel_Input"

/-- `typeID()` of a channel node. -/
def channelTypeID : String := "MRI__System_Shader_Input"

def findNode (g : NodeGraph) (nid : Nat) : Option Node :=
  g.nodes.find? (fun n => n.nid == nid)

/-- `node.outputNodes("Output")`: the (target node, target input port)
pairs fed by the node's given output port. -/
def outputNodes (g : NodeGraph) (nid : Nat) (port : String) :
    List (Nat × String) :=
  (g.edges.filter (fun e => e.src == nid && e.srcPort == port)).map
    (fun e => (e.dst, e.dstPort))

/-- `mari.ExtensionPack.node.inputNode(node, port)`: the (source node,
source output port) feeding the node's given input port, if connected. -/
def inputNode (g : NodeGraph) (nid : Nat) (port : String) :
    Option (Nat × String) :=
  (g.edges.find? (fun e => e.dst == nid && e.dstPort == port)).map
    (fun e => (e.src, e.srcPort))

/-- `target.setInputNode(dstPort, source, srcPort)`: any previous
connection into that input port is replaced. -/
def setInputNode (g : NodeGraph) (dst : Nat) (dstPort : String) (src : Nat)
    (srcPort : String) : NodeGraph :=
  { g with edges :=
      (g.edges.filter (fun e => !(e.dst == dst && e.dstPort == dstPort))) ++
        [⟨dst, dstPort, src, srcPort⟩] }

/-- `nodegraph.deleteNode(node)`: the node disappears together with every
connection touching it. -/
def deleteNode (g : NodeGraph) (nid : Nat) : NodeGraph :=
  { g with
      nodes := g.nodes.filter (fun n => n.nid != nid)
      edges := g.edges.filter (fun e => !(e.src == nid) && !(e.dst == nid)) }

def updateNode (g : NodeGraph) (nid : Nat) (f : Node → Node) : NodeGraph :=
  { g with nodes := g.nodes.map (fun n => if n.nid == nid then f n else n) }

/-- `nodegraph.createPaintNode(w, h, depth, color, paint_type, cs_config)`:
a fresh blank paint node with a host default name and position.  The paint
image is square — the script reads one `size()` and passes it as both
width and height — so the node stores `w` as its size. -/
def createPaintNode (g : NodeGraph) (w h depth fillColor paintType csConfig : Nat) :
    NodeGraph × Nat :=
  ({ g with
      nodes := g.nodes ++
        [{ nid := g.fresh, name := "Paint", typeID := paintTypeID,
           pos := (0, 0),
           payload := Payload.paint w depth fillColor csConfig 0 }]
      fresh := g.fresh + 1 }, g.fresh)

/-- `nodegraph.createChannelNode(w, h, depth, filespace, cs_config)`: a
fresh channel node whose blank channel is a new host object (fresh `cid`),
unlocked and with a host default scalar colorspace config. -/
def createChannelNode (g : NodeGraph) (w h depth filespace csConfig : Nat) :
    NodeGraph × Nat :=
  ({ g with
      nodes := g.nodes ++
        [{ nid := g.fresh, name := "Channel", typeID := channelTypeID,
           pos := (0, 0),
           payload := Payload.channel
             { cid := g.fresh + 1, width := w, height := h, depth := depth,
               csConfig := csConfig, scsConfig := 0, locked := false,
               content := 0 } }]
      fresh := g.fresh + 2 }, g.fresh)

/-- `node.channel()` for a channel node. -/
def Node.channelOf : Node → Option Channel
  | { payload := Payload.channel ch, .. } => some ch
  | _ => none

/-- Mutate the channel carried by a channel node. -/
def Node.mapChannel (f : Channel → Channel) (n : Node) : Node :=
  match n.payload with
  | Payload.channel ch => { n with payload := Payload.channel (f ch) }
  | _ => n

/-- The `UserSelAction` constructor of `mari_paint_replace`: raise
RuntimeError on an empty selection, touch nothing else. -/
def UserSelAction_ctor (selections : List Nat) : Except String (List Nat) :=
  if selections.isEmpty then Except.error "Please select at least one node."
  else Except.ok selections

/-- The wrapped RuntimeError message raised when reconnecting an output
target fails.  The source interpolates `target_node.name` (the bound
method, not its result) and the caught exception text. -/
def connectErrMsg (className origName : String) (t : Nat) (p excp : String) :
    String :=
  "[" ++ className ++ "][reset]Can't connect node " ++ origName ++
    " to <bound method " ++ toString t ++ "> " ++ p ++ " port: " ++ excp

/-- The reconnection loop shared by both `reset` methods: connect each
recorded (target, port) pair to the "Output" port of the new node; the
first host failure (`oracle t p = some excp`) raises the wrapped
RuntimeError and abandons the rest. -/
def connectLoop (oracle : Nat → String → Option String)
    (className origName : String) (newId : Nat) :
    NodeGraph → List (Nat × String) → NodeGraph × Option String
  | g, [] => (g, none)
  | g, (t, p) :: rest =>
    match oracle t p with
    | none =>
      connectLoop oracle className origName newId
        (setInputNode g t p newId "Output") rest
    | some excp => (g, some (connectErrMsg className origName t p excp))

/-- `PaintAction`: holds the paint node (by identity). -/
structure PaintAction where
  paint_node : Nat
deriving DecidableEq, Repr

/-- The `paint_node` property setter: TypeError unless the node is a paint
node. -/
def PaintAction.set_paint_node (g : NodeGraph) (a : PaintAction) (nid : Nat) :
    Except String PaintAction :=
  match findNode g nid with
  | none => Except.error "AttributeError"
  | some n =>
    if n.typeID == paintTypeID then Except.ok { a with paint_node := nid }
    else
      Except.error
        ("[PaintAction][paint_node.setter]The given node " ++ n.name ++
          " is not a paint node")

/-- `PaintAction.__init__`: store the node through the type-checking
setter. -/
def PaintAction.mk0 (g : NodeGraph) (nid : Nat) : Except String PaintAction :=
  PaintAction.set_paint_node g { paint_node := nid } nid

/-- The graph state reached midway through `PaintAction.reset`, after
`createPaintNode(size, size, depth, color, paint_type, cs_config)`,
`setName(original_name)`, `setNodeGraphPosition(original_position)` and
`deleteNode(original)`, before any reconnection.  The new node's identity
is `g.fresh`. -/
def PaintAction.resetGraphMid (g : NodeGraph) (nid : Nat) (node : Node)
    (size depth fillColor csConfig : Nat) : NodeGraph :=
  let gn := createPaintNode g size size depth fillColor 0 csConfig
  let g2 := updateNode gn.1 gn.2 (fun m => { m with name := node.name })
  let g3 := updateNode g2 gn.2 (fun m => { m with pos := node.pos })
  deleteNode g3 nid

/-- `PaintAction.reset`: read the node's metadata and output connections,
create a blank copy, carry the name and position over, delete the
original, adopt the new node, then reconnect every recorded target. -/
def PaintAction.reset (oracle : Nat → String → Option String) (g : NodeGraph)
    (a : PaintAction) : NodeGraph × PaintAction × Option String :=
  match findNode g a.paint_node with
  | none => (g, a, some "AttributeError")
  | some node =>
    match node.payload with
    | Payload.paint size depth fillColor csConfig _ =>
      let list_connection := outputNodes g a.paint_node "Output"
      let g4 := PaintAction.resetGraphMid g a.paint_node node
        size depth fillColor csConfig
      match PaintAction.set_paint_node g4 a g.fresh with
      | Except.error e => (g4, a, some e)
      | Except.ok a1 =>
        let ge := connectLoop oracle "PaintAction" node.name g.fresh g4
          list_connection
        (ge.1, a1, ge.2)
    | _ => (g, a, some "AttributeError")

/-- `ChannelAction`: the channel node (by identity), the `channel`
attribute set in `__init__`, and the misspelled `channnel` attribute the
property setter actually assigns. -/
structure ChannelAction where
  channel_node : Nat
  channel : Channel
  channnel : Option Channel
deriving DecidableEq, Repr

/-- The `channel_node` property setter: TypeError unless the node is a
channel node.  The source then assigns `self.channnel = node.channel()` —
a misspelling — so the `channel` field is left untouched. -/
def ChannelAction.set_channel_node (g : NodeGraph) (a : ChannelAction)
    (nid : Nat) : Except String ChannelAction :=
  match findNode g nid with
  | none => Except.error "AttributeError"
  | some n =>
    if n.typeID == channelTypeID then
      Except.ok { a with channel_node := nid, channnel := n.channelOf }
    else
      Except.error
        ("[ChannelAction][channel_node.setter]The given node " ++ n.name ++
          " is not a channel node")

/-- `ChannelAction.__init__`: run the node through the setter (which sets
`channnel`), then assign `self.channel = self.channel_node.channel()`. -/
def ChannelAction.mk0 (g : NodeGraph) (nid : Nat) : Except String ChannelAction :=
  match findNode g nid with
  | none => Except.error "AttributeError"
  | some n =>
    if n.typeID == channelTypeID then
      match n.channelOf with
      | some ch =>
        Except.ok { channel_node := nid, channel := ch, channnel := some ch }
      | none => Except.error "AttributeError"
    else
      Except.error
        ("[ChannelAction][channel_node.setter]The given node " ++ n.name ++
          " is not a channel node")

/-- The graph state reached midway through `ChannelAction.reset`, after
`createChannelNode(width, height, depth, filespace, cs_config)` — the
metadata coming from `self.channel` — then `setLocked`,
`setScalarColorspaceConfig`, `setName`, `setNodeGraphPosition` and
`deleteNode(original)`, before any reconnection.  The new node's identity
is `g.fresh`. -/
def ChannelAction.resetGraphMid (g : NodeGraph) (nid : Nat) (node : Node)
    (ch : Channel) : NodeGraph :=
  let gn := createChannelNode g ch.width ch.height ch.depth 0 ch.csConfig
  let g2 := updateNode gn.1 gn.2
    (Node.mapChannel (fun c => { c with locked := ch.locked }))
  let g3 := updateNode g2 gn.2
    (Node.mapChannel (fun c => { c with scsConfig := ch.scsConfig }))
  let g4 := updateNode g3 gn.2 (fun m => { m with name := node.name })
  let g5 := updateNode g4 gn.2 (fun m => { m with pos := node.pos })
  deleteNode g5 nid

/-- `ChannelAction.reset`: like the paint reset, but the metadata is read
from `self.channel`, the new channel additionally receives the original
locked state and scalar colorspace config, and the node feeding the
original's "Input" port is reconnected to the new node at the end (a call
outside the try/except: its failure propagates unwrapped). -/
def ChannelAction.reset (oracle : Nat → String → Option String)
    (g : NodeGraph) (a : ChannelAction) :
    NodeGraph × ChannelAction × Option String :=
  match findNode g a.channel_node with
  | none => (g, a, some "AttributeError")
  | some node =>
    let list_out_connection := outputNodes g a.channel_node "Output"
    let input_conn := inputNode g a.channel_node "Input"
    let g6 := ChannelAction.resetGraphMid g a.channel_node node a.channel
    match ChannelAction.set_channel_node g6 a g.fresh with
    | Except.error e => (g6, a, some e)
    | Except.ok a1 =>
      match connectLoop oracle "ChannelAction" node.name g.fresh g6
          list_out_connection with
      | (g7, some err) => (g7, a1, some err)
      | (g7, none) =>
        match input_conn with
        | none => (g7, a1, none)
        | some sp =>
          match oracle g.fresh "Input" with
          | some excp => (g7, a1, some excp)
          | none => (setInputNode g7 g.fresh "Input" sp.1 sp.2, a1, none)

/-- The TypeError message raised by `main` for an unsupported node type. -/
def mainTypeErrMsg (nodeName : String) : String :=
  "[main] The given node " ++ nodeName ++
    " is not a channel, neither a paint node (not supported.)"

/-- The selection loop of `main`: one pass over the selected nodes, each
dispatched on its `typeID()`; any raised exception aborts the loop with
the state reached so far. -/
def mainLoop (oracle : Nat → String → Option String) :
    NodeGraph → List Nat → NodeGraph × Option String
  | g, [] => (g, none)
  | g, nid :: rest =>
    match findNode g nid with
    | none => (g, some "AttributeError")
    | some n =>
      if n.typeID == channelTypeID then
        match ChannelAction.mk0 g nid with
        | Except.error e => (g, some e)
        | Except.ok a =>
          match ChannelAction.reset oracle g a with
          | (g2, _, some e) => (g2, some e)
          | (g2, _, none) => mainLoop oracle g2 rest
      else if n.typeID == paintTypeID then
        match PaintAction.mk0 g nid with
        | Except.error e => (g, some e)
        | Except.ok a =>
          match PaintAction.reset oracle g a with
          | (g2, _, some e) => (g2, some e)
          | (g2, _, none) => mainLoop oracle g2 rest
      else (g, some (mainTypeErrMsg n.name))

/-- `main` of `mari_paint_replace`: build the `UserSelAction` (raising on
an empty selection), then run the single pass over the selection. -/
def main (oracle : Nat → String → Option String) (g : NodeGraph)
    (selection : List Nat) : NodeGraph × Option String :=
  match UserSelAction_ctor selection with
  | Except.error e => (g, some e)
  | Except.ok sels => mainLoop oracle g sels

/-- Host-graph sanity: node identities and edge endpoints are below the
fresh counter, and each input port holds at most one connection. -/
def Wf (g : NodeGraph) : Prop :=
  (∀ n ∈ g.nodes, n.nid < g.fresh) ∧
  (∀ e ∈ g.edges, e.dst < g.fresh ∧ e.src < g.fresh) ∧
  (g.edges.map (fun e => (e.dst, e.dstPort))).Nodup

instance (g : NodeGraph) : Decidable (Wf g) := by
  unfold Wf; infer_instance

/-- A concrete channel (locked, non-blank content) for the witnesses. -/
def wch : Channel :=
  { cid := 10, width := 4096, height := 2048, depth := 16, csConfig := 3,
    scsConfig := 4, locked := true, content := 5 }

/-- The channel of the node `ChannelAction.reset` creates when run on
`wgChan` (fresh identity 4, blank content, metadata carried over). -/
def wNewCh : Channel :=
  { cid := 4, width := 4096, height := 2048, depth := 16, csConfig := 3,
    scsConfig := 4, locked := true, content := 0 }

/-- A concrete graph with one channel node (id 0), two downstream nodes
fed by its "Output" port, and a node feeding its "Input" port. -/
def wgChan : NodeGraph :=
  { nodes :=
      [{ nid := 0, name := "BaseColor", typeID := channelTypeID,
         pos := (3, 4), payload := Payload.channel wch },
       { nid := 1, name := "TargetA", typeID := "MRI_X", pos := (9, 9),
         payload := Payload.other },
       { nid := 2, name := "SourceB", typeID := "MRI_Y", pos := (1, 1),
         payload := Payload.other }]
    edges :=
      [⟨1, "PortA", 0, "Output"⟩, ⟨0, "Input", 2, "Out"⟩,
       ⟨2, "PortB", 0, "Output"⟩]
    fresh := 3 }

/-- A concrete graph with one paint node (id 0) feeding two targets. -/
def wgPaint : NodeGraph :=
  { nodes :=
      [{ nid := 0, name := "PaintMe", typeID := paintTypeID, pos := (5, 6),
         payload := Payload.paint 1024 8 2 3 7 },
       { nid := 1, name := "TargetP", typeID := "MRI_Z", pos := (0, 0),
         payload := Payload.other },
       { nid := 2, name := "TargetQ", typeID := "MRI_W", pos := (2, 2),
         payload := Payload.other }]
    edges := [⟨1, "In1", 0, "Output"⟩, ⟨2, "In2", 0, "Output"⟩]
    fresh := 3 }

/-- A concrete graph for the `main` witness: a resettable channel node and
a node of an unsupported type. -/
def wgMain : NodeGraph :=
  { nodes :=
      [{ nid := 0, name := "ChanOk", typeID := channelTypeID, pos := (0, 0),
         payload := Payload.channel
           { cid := 7, width := 64, height := 64, depth := 8, csConfig := 1,
             scsConfig := 2, locked := false, content := 0 } },
       { nid := 1, name := "Mystery", typeID := "MRI_Group", pos := (1, 0),
         payload := Payload.other }]
    edges := []
    fresh := 2 }

/-- A host where every reconnection succeeds. -/
def oracleNone : Nat → String → Option String := fun _ _ => none

/-- A host where reconnecting into node 2 raises RuntimeError "boom". -/
def oracleFail2 : Nat → String → Option String :=
  fun t _ => if t == 2 then some "boom" else none

end PaintReplace

namespace CreateChannels

theorem setupFrom_channels (host : Host) (resolution : Nat)
    (channels_data : List Entry) (st : St) :
    (setupFrom host resolution st channels_data).channels =
      st.channels ++
        (channels_data.filter (fun e => host.createOk e.1)).map
          (expectedChannel host resolution) := by
  induction channels_data generalizing st with
  | nil => simp [setupFrom]
  | cons e rest ih =>
    by_cases h : host.createOk e.1
    · simp [setupFrom, List.foldl_cons, create_channel, h,
        expectedChannel] at ih ⊢
      rw [ih]
      simp
    · simp [setupFrom, List.foldl_cons, create_channel, h] at ih ⊢
      rw [ih]

theorem setupFrom_attempts (host : Host) (resolution : Nat)
    (channels_data : List Entry) (st : St) :
    (setupFrom host resolution st channels_data).attempts =
      st.attempts ++ channels_data.map (·.1) := by
  induction channels_data generalizing st with
  | nil => simp [setupFrom]
  | cons e rest ih =>
    by_cases h : host.createOk e.1 <;>
      simp [setupFrom, List.foldl_cons, create_channel, h] at ih ⊢ <;>
      rw [ih] <;> simp

/-- C3: `ChannelCreator.setup` creates exactly one channel node per entry of
`channels_data` (one `createChannelNode` attempt per entry, in order),
passing the shared resolution as both width and height and the entry's bit
depth; every successfully created channel gets a colorspace config with
`scalar = is_scalar`, `raw = False` and native automatic colorspace
`'ACES - ACEScg'`, and a scalar colorspace config with `scalar = True`,
`raw = True` and native automatic colorspace `'ACES - ACEScg'`. -/
theorem channelCreator_setup_creates_configured_channels
    (host : Host) (resolution : Nat) (channels_data : List Entry) :
    (setup host resolution channels_data).attempts =
      channels_data.map (·.1) ∧
    (setup host resolution channels_data).channels =
      (channels_data.filter (fun e => host.createOk e.1)).map (fun e =>
        { name := e.1
          width := resolution
          height := resolution
          depth := e.2.1
          colorConfig := host.currentColorConfig
          csConfig :=
            { host.initCs e.1 with
                scalar := e.2.2
                raw := false
                nativeAuto := some "ACES - ACEScg" }
          scsConfig :=
            { host.initScs e.1 with
                scalar := true
                raw := true
                nativeAuto := some "ACES - ACEScg" } }) := by
  constructor
  · rw [setup, setupFrom_attempts]
    rfl
  · rw [setup, setupFrom_channels]
    rfl

/-- C5: `create_channel` returns `True` exactly when the host
`createChannelNode` call succeeds; on failure it emits the error message and
creates nothing, and `setup` does not abort — the failing entry's
`create_channel` call is followed by the fold over every remaining entry,
and every entry of `channels_data` gets its creation attempt. -/
theorem create_channel_failure_does_not_abort_batch
    (host : Host) (res bd : Nat) (sc : Bool) (nameT nameF : String)
    (st st2 : St) (rest channels_data : List Entry)
    (h1 : host.createOk nameT = true)
    (h2 : host.createOk nameF = false) :
    (create_channel host res st bd sc nameT).1 = true ∧
    (create_channel host res st bd sc nameF).1 = false ∧
    (create_channel host res st bd sc nameF).2.channels = st.channels ∧
    (create_channel host res st bd sc nameF).2.messages =
      st.messages ++
        ["Cannot create the channel " ++ nameF ++ " : " ++ host.excMsg nameF] ∧
    setupFrom host res st2 ((nameF, bd, sc) :: rest) =
      setupFrom host res (create_channel host res st2 bd sc nameF).2 rest ∧
    (setup host res channels_data).attempts = channels_data.map (·.1) := by
  refine ⟨?_, ?_, ?_, ?_, rfl, ?_⟩
  · simp [create_channel, h1]
  · simp [create_channel, h2]
  · simp [create_channel, h2]
  · simp [create_channel, h2]
  · rw [setup, setupFrom_attempts]
    rfl

theorem create_channel_failure_does_not_abort_batch_witness :
    (create_channel host0 4096 ⟨[], [], []⟩ 16 true "good").1 = true ∧
    (create_channel host0 4096 ⟨[], [], []⟩ 16 true "bad").1 = false ∧
    (create_channel host0 4096 ⟨[], [], []⟩ 16 true "bad").2.channels =
      (⟨[], [], []⟩ : St).channels ∧
    (create_channel host0 4096 ⟨[], [], []⟩ 16 true "bad").2.messages =
      (⟨[], [], []⟩ : St).messages ++
        ["Cannot create the channel " ++ "bad" ++ " : " ++ host0.excMsg "bad"] ∧
    setupFrom host0 4096 ⟨[], [], []⟩ (("bad", 16, true) :: [("good", 32, false)]) =
      setupFrom host0 4096 (create_channel host0 4096 ⟨[], [], []⟩ 16 true "bad").2
        [("good", 32, false)] ∧
    (setup host0 4096 [("good", 16, true), ("bad", 8, false)]).attempts =
      [("good", 16, true), ("bad", 8, false)].map (·.1) :=
  create_channel_failure_does_not_abort_batch host0 4096 16 true "good" "bad"
    ⟨[], [], []⟩ ⟨[], [], []⟩ [("good", 32, false)]
    [("good", 16, true), ("bad", 8, false)] (by decide) (by decide)

end CreateChannels

namespace GroupExpose

theorem knobCreationInner_snd (i : Nat) (node : GNode) :
    ∀ (keys : List String) (d : List (String × List String)) (gs : GroupState),
      (knobCreationInner keys i node (d, gs)).2 =
        { gs with knobs := gs.knobs ++ keys.map (knobFor node i) } := by
  intro keys
  induction keys with
  | nil => intro d gs; simp [knobCreationInner]
  | cons a ks ih =>
    intro d gs
    simp only [knobCreationInner, List.foldl_cons] at ih ⊢
    rw [ih]
    simp [createKnob, knobFor]

theorem knobCreationInner_fst (i : Nat) (node : GNode) :
    ∀ (keys : List String) (d : List (String × List String)) (gs : GroupState),
      (knobCreationInner keys i node (d, gs)).1 =
        keys.foldl
          (fun d attr => updateDictEntry d attr (attr ++ "_" ++ toString i)) d := by
  intro keys
  induction keys with
  | nil => intro d gs; simp [knobCreationInner]
  | cons a ks ih =>
    intro d gs
    simp only [knobCreationInner, List.foldl_cons] at ih ⊢
    rw [ih]

theorem updateDictEntry_fold (i : Nat) (v : String → List String) :
    ∀ (ks : List String) (pre : List (String × List String)),
      ks.Nodup → (∀ p ∈ pre, p.1 ∉ ks) →
      ks.foldl
          (fun d attr => updateDictEntry d attr (attr ++ "_" ++ toString i))
          (pre ++ ks.map (fun a => (a, v a))) =
        pre ++ ks.map
          (fun a => (a, pushKnobName (v a) (a ++ "_" ++ toString i))) := by
  intro ks
  induction ks with
  | nil => intro pre _ _; simp
  | cons a ks ih =>
    intro pre hnd hpre
    have hand : a ∉ ks ∧ ks.Nodup := by
      simpa [List.nodup_cons] using hnd
    have hstep :
        updateDictEntry (pre ++ (a, v a) :: ks.map (fun b => (b, v b))) a
            (a ++ "_" ++ toString i) =
          (pre ++ [(a, pushKnobName (v a) (a ++ "_" ++ toString i))]) ++
            ks.map (fun b => (b, v b)) := by
      unfold updateDictEntry
      rw [List.map_append]
      have hpre2 : pre.map
          (fun p => if p.1 == a then (p.1, pushKnobName p.2 (a ++ "_" ++ toString i)) else p) = pre := by
        rw [List.map_congr_left (g := id)]
        · exact List.map_id pre
        · intro p hp
          have hne : p.1 ≠ a := by
            intro hcon
            exact (hpre p hp) (hcon ▸ List.mem_cons_self a ks)
          simp [hne]
      have hmap : (ks.map (fun b => (b, v b))).map
          (fun p => if p.1 == a then (p.1, pushKnobName p.2 (a ++ "_" ++ toString i)) else p) =
            ks.map (fun b => (b, v b)) := by
        rw [List.map_map, List.map_congr_left]
        intro b hb
        have hne : b ≠ a := by
          intro hcon
          exact hand.1 (hcon ▸ hb)
        simp [Function.comp, hne]
      simp only [List.map_cons, hpre2, hmap]
      simp
    simp only [List.map_cons, List.foldl_cons, List.cons_append] at *
    rw [hstep]
    rw [ih (pre ++ [(a, pushKnobName (v a) (a ++ "_" ++ toString i))]) hand.2]
    · simp
    · intro p hp
      rcases List.mem_append.mp hp with h | h
      · exact fun hc => hpre p h (List.mem_cons_of_mem a hc)
      · simp at h
        subst h
        simpa using hand.1

theorem pushKnobName_rangeNames (a : String) (i : Nat) :
    pushKnobName (rangeNames a i) (a ++ "_" ++ toString i) =
      rangeNames a (i + 1) := by
  cases i <;> simp [pushKnobName, rangeNames, List.range_succ]

theorem knobCreationLoop_spec (keys : List String) (hnd : keys.Nodup) :
    ∀ (sel : List GNode) (i : Nat) (gs : GroupState),
      knobCreationLoop keys
          (keys.map (fun a => (a, rangeNames a i)), gs) (enumerate i sel) =
        (keys.map (fun a => (a, rangeNames a (i + sel.length))),
         { gs with knobs :=
             gs.knobs ++
               (enumerate i sel).flatMap (fun p => keys.map (knobFor p.2 p.1)) }) := by
  intro sel
  induction sel with
  | nil => intro i gs; simp [enumerate, knobCreationLoop]
  | cons node sel ih =>
    intro i gs
    simp only [enumerate, knobCreationLoop]
    have hfst := knobCreationInner_fst i node keys
      (keys.map (fun a => (a, rangeNames a i))) gs
    have hsnd := knobCreationInner_snd i node keys
      (keys.map (fun a => (a, rangeNames a i))) gs
    have hdict :
        (knobCreationInner keys i node
            (keys.map (fun a => (a, rangeNames a i)), gs)).1 =
          keys.map (fun a => (a, rangeNames a (i + 1))) := by
      rw [hfst]
      have hfold := updateDictEntry_fold i (fun a => rangeNames a i) keys [] hnd
        (by intro p hp; simp at hp)
      simp only [List.nil_append] at hfold
      rw [hfold]
      apply List.map_congr_left
      intro a _
      rw [pushKnobName_rangeNames]
    have hpair :
        knobCreationInner keys i node
            (keys.map (fun a => (a, rangeNames a i)), gs) =
          (keys.map (fun a => (a, rangeNames a (i + 1))),
           { gs with knobs := gs.knobs ++ keys.map (knobFor node i) }) := by
      apply Prod.ext
      · simpa using hdict
      · simpa using hsnd
    rw [hpair, ih (i + 1)]
    have harith : i + 1 + sel.length = i + (sel.length + 1) := by omega
    rw [harith]
    simp [List.flatMap_cons, List.append_assoc]

theorem insertKey_fold_nodup :
    ∀ (l acc : List String), acc.Nodup → (l.foldl insertKey acc).Nodup := by
  intro l
  induction l with
  | nil => intro acc h; simpa using h
  | cons a l ih =>
    intro acc h
    simp only [List.foldl_cons]
    apply ih
    unfold insertKey
    by_cases hm : a ∈ acc
    · simpa [hm] using h
    · simp [hm, List.nodup_append, h]

theorem mem_foldl_insertKey :
    ∀ (l acc : List String) (k : String),
      k ∈ l.foldl insertKey acc → k ∈ acc ∨ k ∈ l := by
  intro l
  induction l with
  | nil => intro acc k h; exact Or.inl (by simpa using h)
  | cons a l ih =>
    intro acc k h
    simp only [List.foldl_cons] at h
    rcases ih (insertKey acc a) k h with h2 | h2
    · unfold insertKey at h2
      by_cases hm : a ∈ acc
      · simp [hm] at h2
        exact Or.inl h2
      · simp [hm] at h2
        rcases h2 with h3 | h3
        · exact Or.inl h3
        · exact Or.inr (by simp [h3])
    · exact Or.inr (List.mem_cons_of_mem a h2)

theorem exposeKeys_nodup (first : GNode) (ignore : List String) :
    (exposeKeys first ignore).Nodup :=
  insertKey_fold_nodup _ [] (by simp)

theorem exposeKeys_not_ignored (first : GNode) (ignore : List String) :
    ∀ a ∈ ignore, ∀ attr ∈ exposeKeys first ignore, attr ≠ a := by
  intro a ha attr hattr hcon
  rcases mem_foldl_insertKey _ [] attr hattr with h | h
  · simp at h
  · have hmem := List.of_mem_filter h
    rw [hcon] at hmem
    simp [ha] at hmem

theorem check_same_type_ok (first : GNode) (rest : List GNode)
    (h : ∀ n ∈ first :: rest, n.typeID = first.typeID) :
    check_same_type (first :: rest) = Except.ok () := by
  have hnone : List.find? (fun n => n.typeID != first.typeID) (first :: rest) = none := by
    rw [List.find?_eq_none]
    intro n hn
    simp [h n hn]
  simp [check_same_type, hnone]

theorem linkKnobsStep_fold_all_ok (linkRes : String → Option String)
    (first : GNode) (hok : ∀ a, linkRes a = none) :
    ∀ (d : List (String × List String)) (gs : GroupState),
      d.foldl (linkKnobsStep linkRes first) gs =
        { gs with links :=
            gs.links ++
              d.map (fun e => (e.1, e.2, first.metadataDisplayName e.1)) } := by
  intro d
  induction d with
  | nil => intro gs; simp
  | cons e d ih =>
    intro gs
    simp only [List.foldl_cons, linkKnobsStep, hok e.1]
    rw [ih]
    simp

/-- C4: for a non-empty same-type selection inside a parent group node,
`expose_attr_to_parent_group` creates, for every metadata attribute of the
first selected node not in `attr_ignore_list`, one knob per selected node
named `attr_index` (index the node's 0-based selection position, the knob
targeting that node's attribute), then links the `n` knobs of each
attribute under one knob named after the attribute; ignored attributes
yield no knob. -/
theorem expose_attr_creates_and_links_knobs
    (linkRes : String → Option String) (first : GNode) (rest : List GNode)
    (gs0 : GroupState) (attr_ignore_list : List String)
    (hsame : ∀ n ∈ first :: rest, n.typeID = first.typeID)
    (hlink : ∀ a, linkRes a = none) :
    expose_attr_to_parent_group linkRes (first :: rest) (some gs0)
        attr_ignore_list =
      (some
        { knobs :=
            gs0.knobs ++
              (enumerate 0 (first :: rest)).flatMap (fun p =>
                (exposeKeys first attr_ignore_list).map (knobFor p.2 p.1))
          links :=
            gs0.links ++
              (exposeKeys first attr_ignore_list).map (fun attr =>
                (attr, rangeNames attr (first :: rest).length,
                  first.metadataDisplayName attr))
          printed := gs0.printed },
        none) ∧
    ∀ a ∈ attr_ignore_list, ∀ attr ∈ exposeKeys first attr_ignore_list,
      attr ≠ a := by
  refine ⟨?_, exposeKeys_not_ignored first attr_ignore_list⟩
  have hkeys := exposeKeys_nodup first attr_ignore_list
  simp only [expose_attr_to_parent_group, check_same_type_ok first rest hsame]
  have h0 : (fun a => (a, ([] : List String))) =
      (fun a => (a, rangeNames a 0)) := by
    funext a
    simp [rangeNames]
  rw [h0, knobCreationLoop_spec _ hkeys (first :: rest) 0 gs0,
    linkKnobsStep_fold_all_ok linkRes first hlink]
  simp [List.map_map, Function.comp]

theorem expose_attr_creates_and_links_knobs_witness :
    expose_attr_to_parent_group (fun _ => none) [gnodeA, gnodeB]
        (some ⟨[], [], []⟩) ["skipme"] =
      (some
        { knobs :=
            (⟨[], [], []⟩ : GroupState).knobs ++
              (enumerate 0 [gnodeA, gnodeB]).flatMap (fun p =>
                (exposeKeys gnodeA ["skipme"]).map (knobFor p.2 p.1))
          links :=
            (⟨[], [], []⟩ : GroupState).links ++
              (exposeKeys gnodeA ["skipme"]).map (fun attr =>
                (attr, rangeNames attr ([gnodeA, gnodeB] : List GNode).length,
                  gnodeA.metadataDisplayName attr))
          printed := (⟨[], [], []⟩ : GroupState).printed },
        none) ∧
    ∀ a ∈ ["skipme"], ∀ attr ∈ exposeKeys gnodeA ["skipme"], attr ≠ a :=
  expose_attr_creates_and_links_knobs (fun _ => none) gnodeA [gnodeB]
    ⟨[], [], []⟩ ["skipme"] (by decide) (fun _ => rfl)

/-- C9: `expose_attr_to_parent_group` validates before mutating: a mixed
selection raises the `check_same_type` TypeError at the first offending
node and a missing parent group raises the group TypeError, in both cases
leaving the group state exactly as it was. -/
theorem expose_attr_validates_before_mutation
    (linkRes : String → Option String)
    (firstA : GNode) (restA : List GNode) (bad : GNode)
    (firstB : GNode) (restB : List GNode)
    (parent : Option GroupState) (ignoreA ignoreB : List String)
    (hA : (firstA :: restA).find? (fun n => n.typeID != firstA.typeID) =
      some bad)
    (hB : ∀ n ∈ firstB :: restB, n.typeID = firstB.typeID) :
    expose_attr_to_parent_group linkRes (firstA :: restA) parent ignoreA =
      (parent, some (sameTypeErrMsg bad.name)) ∧
    expose_attr_to_parent_group linkRes (firstB :: restB) none ignoreB =
      (none, some noGroupErrMsg) := by
  constructor
  · simp [expose_attr_to_parent_group, check_same_type, hA]
  · simp [expose_attr_to_parent_group, check_same_type_ok firstB restB hB]

theorem expose_attr_validates_before_mutation_witness :
    expose_attr_to_parent_group (fun _ => none) [gnodeA, gnodeOther]
        (some ⟨[], [], []⟩) [] =
      (some ⟨[], [], []⟩, some (sameTypeErrMsg gnodeOther.name)) ∧
    expose_attr_to_parent_group (fun _ => none) [gnodeA, gnodeB] none [] =
      (none, some noGroupErrMsg) :=
  expose_attr_validates_before_mutation (fun _ => none)
    gnodeA [gnodeOther] gnodeOther gnodeA [gnodeB]
    (some ⟨[], [], []⟩) [] [] (by decide) (by decide)

end GroupExpose

namespace PaintReplace

theorem find?_filter_of_imp {α : Type} (f h : α → Bool)
    (him : ∀ x, f x = true → h x = true) :
    ∀ l : List α, (l.filter h).find? f = l.find? f := by
  intro l
  induction l with
  | nil => simp
  | cons a l ih =>
    by_cases hh : h a = true
    · rw [List.filter_cons_of_pos hh]
      cases hf : f a <;> simp [List.find?_cons, hf, ih]
    · have hfa : f a = false := by
        cases hfa : f a
        · rfl
        · exact absurd (him a hfa) hh
      rw [List.filter_cons_of_neg hh]
      simp [List.find?_cons, hfa, ih]

theorem inputNode_setInputNode_self (g : NodeGraph) (t : Nat) (p : String)
    (s : Nat) (sp : String) :
    inputNode (setInputNode g t p s sp) t p = some (s, sp) := by
  unfold inputNode setInputNode
  simp only [List.find?_append]
  have h1 : (g.edges.filter (fun e => !(e.dst == t && e.dstPort == p))).find?
      (fun e => e.dst == t && e.dstPort == p) = none := by
    rw [List.find?_eq_none]
    intro e he
    have h2 := List.of_mem_filter he
    simp only [Bool.not_eq_eq_eq_not, Bool.not_true, Bool.and_eq_false_imp] at h2
    simp only [Bool.and_eq_true, beq_iff_eq, not_and]
    intro hd hp
    have := h2
    simp only [beq_iff_eq] at this
    exact absurd hp (by simpa [hd] using this)
  rw [h1]
  simp [List.find?]

theorem inputNode_setInputNode_other (g : NodeGraph) (t t2 : Nat)
    (p p2 : String) (s : Nat) (sp : String) (h : ¬(t = t2 ∧ p = p2)) :
    inputNode (setInputNode g t2 p2 s sp) t p = inputNode g t p := by
  unfold inputNode setInputNode
  simp only [List.find?_append]
  rw [find?_filter_of_imp (α := Edge) (fun e => e.dst == t && e.dstPort == p)
    (fun e => !(e.dst == t2 && e.dstPort == p2))]
  · have h2 : ([(⟨t2, p2, s, sp⟩ : Edge)].find?
        (fun e => e.dst == t && e.dstPort == p)) = none := by
      rw [List.find?_eq_none]
      intro e he
      simp only [List.mem_singleton] at he
      subst he
      simp only [Bool.and_eq_true, beq_iff_eq, not_and]
      intro hd hp
      exact h ⟨hd.symm, hp.symm⟩
    rw [h2]
    cases g.edges.find? (fun e => e.dst == t && e.dstPort == p) <;> rfl
  · intro e hf
    simp only [Bool.and_eq_true, beq_iff_eq] at hf
    simp only [Bool.not_eq_eq_eq_not, Bool.not_true, Bool.and_eq_false_iff,
      beq_eq_false_iff_ne, ne_eq]
    by_cases hd : e.dst = t2
    · right
      intro hp
      exact h ⟨hf.1.symm.trans hd, hf.2.symm.trans hp⟩
    · left
      exact hd

theorem connectLoop_nodes (oracle : Nat → String → Option String)
    (c o : String) (newId : Nat) :
    ∀ (l : List (Nat × String)) (g : NodeGraph),
      (connectLoop oracle c o newId g l).1.nodes = g.nodes := by
  intro l
  induction l with
  | nil => intro g; simp [connectLoop]
  | cons tp rest ih =>
    intro g
    obtain ⟨t, p⟩ := tp
    simp only [connectLoop]
    cases horc : oracle t p with
    | none => rw [ih]; rfl
    | some e => rfl

theorem connectLoop_preserves (oracle : Nat → String → Option String)
    (c o : String) (newId t : Nat) (p : String) :
    ∀ (l : List (Nat × String)) (g : NodeGraph),
      inputNode g t p = some (newId, "Output") →
      inputNode (connectLoop oracle c o newId g l).1 t p =
        some (newId, "Output") := by
  intro l
  induction l with
  | nil => intro g h; simpa [connectLoop] using h
  | cons tp rest ih =>
    intro g h
    obtain ⟨t2, p2⟩ := tp
    simp only [connectLoop]
    cases horc : oracle t2 p2 with
    | some e => simpa using h
    | none =>
      apply ih
      by_cases heq : t = t2 ∧ p = p2
      · obtain ⟨h1, h2⟩ := heq
        subst h1; subst h2
        exact inputNode_setInputNode_self g t p newId "Output"
      · rw [inputNode_setInputNode_other g t t2 p p2 newId "Output" heq]
        exact h

theorem connectLoop_mem (oracle : Nat → String → Option String)
    (c o : String) (newId : Nat) :
    ∀ (l : List (Nat × String)) (g : NodeGraph) (t : Nat) (p : String),
      (t, p) ∈ l → (∀ tp ∈ l, oracle tp.1 tp.2 = none) →
      inputNode (connectLoop oracle c o newId g l).1 t p =
        some (newId, "Output") := by
  intro l
  induction l with
  | nil => intro g t p h _; simp at h
  | cons tp rest ih =>
    intro g t p hmem hok
    obtain ⟨t2, p2⟩ := tp
    have ho2 : oracle t2 p2 = none := hok (t2, p2) (by simp)
    simp only [connectLoop, ho2]
    rcases List.mem_cons.mp hmem with heq | hmem2
    · have h1 : t = t2 := congrArg Prod.fst heq
      have h2 : p = p2 := congrArg Prod.snd heq
      subst h1; subst h2
      apply connectLoop_preserves
      exact inputNode_setInputNode_self g t p newId "Output"
    · exact ih _ t p hmem2 (fun tp h => hok tp (List.mem_cons_of_mem _ h))

theorem connectLoop_all_ok (oracle : Nat → String → Option String)
    (c o : String) (newId : Nat) :
    ∀ (l : List (Nat × String)) (g : NodeGraph),
      (∀ tp ∈ l, oracle tp.1 tp.2 = none) →
      (connectLoop oracle c o newId g l).2 = none := by
  intro l
  induction l with
  | nil => intro g _; simp [connectLoop]
  | cons tp rest ih =>
    intro g hok
    obtain ⟨t2, p2⟩ := tp
    have ho2 : oracle t2 p2 = none := hok (t2, p2) (by simp)
    simp only [connectLoop, ho2]
    exact ih _ (fun tp h => hok tp (List.mem_cons_of_mem _ h))

theorem connectLoop_fail (oracle : Nat → String → Option String)
    (c o : String) (newId tf : Nat) (pf excp : String) :
    ∀ (pre post : List (Nat × String)) (g : NodeGraph),
      (∀ tp ∈ pre, oracle tp.1 tp.2 = none) →
      oracle tf pf = some excp →
      connectLoop oracle c o newId g (pre ++ (tf, pf) :: post) =
        (pre.foldl (fun g tp => setInputNode g tp.1 tp.2 newId "Output") g,
         some (connectErrMsg c o tf pf excp)) := by
  intro pre
  induction pre with
  | nil =>
    intro post g _ hf
    simp [connectLoop, hf]
  | cons tp pre ih =>
    intro post g hok hf
    obtain ⟨t2, p2⟩ := tp
    have ho2 : oracle t2 p2 = none := hok (t2, p2) (by simp)
    simp only [List.cons_append, connectLoop, ho2, List.foldl_cons]
    exact ih post _ (fun tp h => hok tp (List.mem_cons_of_mem _ h)) hf

theorem connectLoop_trivial (c o : String) (newId : Nat) :
    ∀ (pre : List (Nat × String)) (g : NodeGraph),
      connectLoop (fun _ _ => none) c o newId g pre =
        (pre.foldl (fun g tp => setInputNode g tp.1 tp.2 newId "Output") g,
         none) := by
  intro pre
  induction pre with
  | nil => intro g; simp [connectLoop]
  | cons tp pre ih =>
    intro g
    obtain ⟨t2, p2⟩ := tp
    simp only [connectLoop, List.foldl_cons]
    exact ih _

theorem findNode_eq_of_nodes_eq (g g2 : NodeGraph) (x : Nat)
    (h : g.nodes = g2.nodes) : findNode g x = findNode g2 x := by
  unfold findNode
  rw [h]

theorem inputNode_eq_of_edges_eq (g g2 : NodeGraph) (t : Nat) (p : String)
    (h : g.edges = g2.edges) : inputNode g t p = inputNode g2 t p := by
  unfold inputNode
  rw [h]

theorem findNode_deleteNode_self (g : NodeGraph) (nid : Nat) :
    findNode (deleteNode g nid) nid = none := by
  unfold findNode deleteNode
  rw [List.find?_eq_none]
  intro n hn
  have h2 := List.of_mem_filter hn
  simp only [bne_iff_ne, ne_eq] at h2
  simp only [beq_iff_eq]
  exact h2

theorem findNode_deleteNode_other (g : NodeGraph) (nid x : Nat) (h : x ≠ nid) :
    findNode (deleteNode g nid) x = findNode g x := by
  unfold findNode deleteNode
  refine find?_filter_of_imp (α := Node) _ _ (fun n hf => ?_) g.nodes
  simp only [beq_iff_eq] at hf
  simp only [bne_iff_ne, ne_eq]
  rw [hf]
  exact h

theorem find?_map_update (nid : Nat) (f : Node → Node)
    (hf : ∀ n, (f n).nid = n.nid) :
    ∀ l : List Node,
      (l.map (fun n => if n.nid == nid then f n else n)).find?
          (fun n => n.nid == nid) =
        (l.find? (fun n => n.nid == nid)).map f := by
  intro l
  induction l with
  | nil => simp
  | cons a l ih =>
    simp only [List.map_cons]
    by_cases ha : (a.nid == nid) = true
    · rw [if_pos ha]
      have hfa : ((f a).nid == nid) = true := by
        rw [hf a]
        exact ha
      rw [List.find?_cons_of_pos (p := fun n : Node => n.nid == nid) _ hfa,
        List.find?_cons_of_pos (p := fun n : Node => n.nid == nid) _ ha]
      rfl
    · rw [if_neg ha]
      have hb : (a.nid == nid) = false := by
        simpa using ha
      have hb2 : ¬(a.nid == nid) = true := by
        simp [hb]
      rw [List.find?_cons_of_neg (p := fun n : Node => n.nid == nid) _ hb2,
        List.find?_cons_of_neg (p := fun n : Node => n.nid == nid) _ hb2]
      exact ih

theorem findNode_updateNode_self (g : NodeGraph) (nid : Nat) (f : Node → Node)
    (hf : ∀ n, (f n).nid = n.nid) :
    findNode (updateNode g nid f) nid = (findNode g nid).map f := by
  unfold findNode updateNode
  exact find?_map_update nid f hf g.nodes

theorem find?_append_new (l : List Node) (nn : Node)
    (hlt : ∀ m ∈ l, m.nid < nn.nid) :
    (l ++ [nn]).find? (fun m => m.nid == nn.nid) = some nn := by
  rw [List.find?_append]
  have h1 : l.find? (fun m => m.nid == nn.nid) = none := by
    rw [List.find?_eq_none]
    intro m hm
    have h2 := hlt m hm
    simp only [beq_iff_eq]
    omega
  rw [h1]
  simp [List.find?]

theorem mapChannel_nid (f : Channel → Channel) (m : Node) :
    (Node.mapChannel f m).nid = m.nid := by
  rcases m with ⟨nid, name, ty, pos, pay⟩
  cases pay <;> rfl

theorem paint_resetGraphMid_findNew (g : NodeGraph) (nid : Nat) (node : Node)
    (size depth fc cs : Nat)
    (hlt : ∀ m ∈ g.nodes, m.nid < g.fresh) (hne : g.fresh ≠ nid) :
    findNode (PaintAction.resetGraphMid g nid node size depth fc cs) g.fresh =
      some { nid := g.fresh, name := node.name, typeID := paintTypeID,
             pos := node.pos,
             payload := Payload.paint size depth fc cs 0 } := by
  simp only [PaintAction.resetGraphMid]
  rw [show (createPaintNode g size size depth fc 0 cs).2 = g.fresh from rfl]
  rw [findNode_deleteNode_other _ _ _ hne,
    findNode_updateNode_self _ _ (fun m => { m with pos := node.pos })
      (fun m => rfl),
    findNode_updateNode_self _ _ (fun m => { m with name := node.name })
      (fun m => rfl)]
  have hbase : findNode (createPaintNode g size size depth fc 0 cs).1 g.fresh =
      some { nid := g.fresh, name := "Paint", typeID := paintTypeID,
             pos := (0, 0), payload := Payload.paint size depth fc cs 0 } := by
    unfold findNode createPaintNode
    exact find?_append_new g.nodes
      { nid := g.fresh, name := "Paint", typeID := paintTypeID,
        pos := (0, 0), payload := Payload.paint size depth fc cs 0 } hlt
  rw [hbase]
  rfl

theorem paint_resetGraphMid_findDel (g : NodeGraph) (nid : Nat) (node : Node)
    (size depth fc cs : Nat) :
    findNode (PaintAction.resetGraphMid g nid node size depth fc cs) nid =
      none := by
  unfold PaintAction.resetGraphMid
  exact findNode_deleteNode_self _ nid

theorem paint_resetGraphMid_edges (g : NodeGraph) (nid : Nat) (node : Node)
    (size depth fc cs : Nat) :
    (PaintAction.resetGraphMid g nid node size depth fc cs).edges =
      (deleteNode g nid).edges := rfl

theorem chan_resetGraphMid_findNew (g : NodeGraph) (nid : Nat) (node : Node)
    (ch : Channel)
    (hlt : ∀ m ∈ g.nodes, m.nid < g.fresh) (hne : g.fresh ≠ nid) :
    findNode (ChannelAction.resetGraphMid g nid node ch) g.fresh =
      some { nid := g.fresh, name := node.name, typeID := channelTypeID,
             pos := node.pos,
             payload := Payload.channel
               { cid := g.fresh + 1, width := ch.width, height := ch.height,
                 depth := ch.depth, csConfig := ch.csConfig,
                 scsConfig := ch.scsConfig, locked := ch.locked,
                 content := 0 } } := by
  simp only [ChannelAction.resetGraphMid]
  rw [show (createChannelNode g ch.width ch.height ch.depth 0 ch.csConfig).2 =
    g.fresh from rfl]
  rw [findNode_deleteNode_other _ _ _ hne,
    findNode_updateNode_self _ _ (fun m => { m with pos := node.pos })
      (fun m => rfl),
    findNode_updateNode_self _ _ (fun m => { m with name := node.name })
      (fun m => rfl),
    findNode_updateNode_self _ _
      (Node.mapChannel (fun c => { c with scsConfig := ch.scsConfig }))
      (mapChannel_nid _),
    findNode_updateNode_self _ _
      (Node.mapChannel (fun c => { c with locked := ch.locked }))
      (mapChannel_nid _)]
  have hbase : findNode
      (createChannelNode g ch.width ch.height ch.depth 0 ch.csConfig).1
      g.fresh =
      some { nid := g.fresh, name := "Channel", typeID := channelTypeID,
             pos := (0, 0),
             payload := Payload.channel
               { cid := g.fresh + 1, width := ch.width, height := ch.height,
                 depth := ch.depth, csConfig := ch.csConfig, scsConfig := 0,
                 locked := false, content := 0 } } := by
    unfold findNode createChannelNode
    exact find?_append_new g.nodes
      { nid := g.fresh, name := "Channel", typeID := channelTypeID,
        pos := (0, 0),
        payload := Payload.channel
          { cid := g.fresh + 1, width := ch.width, height := ch.height,
            depth := ch.depth, csConfig := ch.csConfig, scsConfig := 0,
            locked := false, content := 0 } } hlt
  rw [hbase]
  rfl

theorem chan_resetGraphMid_findDel (g : NodeGraph) (nid : Nat) (node : Node)
    (ch : Channel) :
    findNode (ChannelAction.resetGraphMid g nid node ch) nid = none := by
  unfold ChannelAction.resetGraphMid
  exact findNode_deleteNode_self _ nid

theorem chan_resetGraphMid_edges (g : NodeGraph) (nid : Nat) (node : Node)
    (ch : Channel) :
    (ChannelAction.resetGraphMid g nid node ch).edges =
      (deleteNode g nid).edges := rfl

theorem outputNodes_dst_lt (g : NodeGraph) (hwf : Wf g) (nid : Nat)
    (port : String) :
    ∀ tp ∈ outputNodes g nid port, tp.1 < g.fresh := by
  intro tp htp
  unfold outputNodes at htp
  obtain ⟨e, he, heq⟩ := List.mem_map.mp htp
  have hmem := List.mem_of_mem_filter he
  have hlt := (hwf.2.1 e hmem).1
  rw [← heq]
  exact hlt

theorem outputNodes_nodup (g : NodeGraph) (hwf : Wf g) (nid : Nat)
    (port : String) :
    (outputNodes g nid port).Nodup := by
  unfold outputNodes
  refine hwf.2.2.sublist ?_
  exact (List.filter_sublist _).map _

theorem outputNodes_mem_edge (g : NodeGraph) (nid : Nat) (port : String)
    (tp : Nat × String) (h : tp ∈ outputNodes g nid port) :
    ∃ e ∈ g.edges, e.src = nid ∧ e.srcPort = port ∧ e.dst = tp.1 ∧
      e.dstPort = tp.2 := by
  unfold outputNodes at h
  obtain ⟨e, he, heq⟩ := List.mem_map.mp h
  have h2 := List.of_mem_filter he
  simp only [Bool.and_eq_true, beq_iff_eq] at h2
  refine ⟨e, List.mem_of_mem_filter he, h2.1, h2.2, ?_, ?_⟩
  · rw [← heq]
  · rw [← heq]

theorem inputNode_deleteNode_output_none (g : NodeGraph) (hwf : Wf g)
    (nid t : Nat) (p : String)
    (hmem : (t, p) ∈ outputNodes g nid "Output") :
    inputNode (deleteNode g nid) t p = none := by
  obtain ⟨e, heMem, hsrc, _, hdst, hdport⟩ :=
    outputNodes_mem_edge g nid "Output" (t, p) hmem
  unfold inputNode deleteNode
  have hnone : (g.edges.filter
      (fun e2 => !(e2.src == nid) && !(e2.dst == nid))).find?
      (fun e2 => e2.dst == t && e2.dstPort == p) = none := by
    rw [List.find?_eq_none]
    intro e2 he2
    simp only [Bool.and_eq_true, beq_iff_eq, not_and]
    intro hd hp
    have he2mem := List.mem_of_mem_filter he2
    have he2filter := List.of_mem_filter he2
    simp only [Bool.and_eq_true, Bool.not_eq_eq_eq_not, Bool.not_true,
      beq_eq_false_iff_ne, ne_eq] at he2filter
    have hkey : (fun e3 => (e3.dst, e3.dstPort)) e2 =
        (fun e3 => (e3.dst, e3.dstPort)) e := by
      simp only []
      rw [hd, hp, hdst, hdport]
    have heq : e2 = e :=
      List.inj_on_of_nodup_map hwf.2.2 he2mem heMem hkey
    exact he2filter.1 (heq ▸ hsrc)
  rw [hnone]
  rfl

theorem inputNode_deleteNode_fresh_none (g : NodeGraph) (hwf : Wf g)
    (nid : Nat) (p : String) :
    inputNode (deleteNode g nid) g.fresh p = none := by
  unfold inputNode deleteNode
  have hnone : (g.edges.filter
      (fun e2 => !(e2.src == nid) && !(e2.dst == nid))).find?
      (fun e2 => e2.dst == g.fresh && e2.dstPort == p) = none := by
    rw [List.find?_eq_none]
    intro e2 he2
    have he2mem := List.mem_of_mem_filter he2
    have hlt := (hwf.2.1 e2 he2mem).1
    simp only [Bool.and_eq_true, beq_iff_eq, not_and]
    intro hd
    omega
  rw [hnone]
  rfl

theorem applyPre_nodes (newId : Nat) :
    ∀ (pre : List (Nat × String)) (g : NodeGraph),
      (pre.foldl (fun g tp => setInputNode g tp.1 tp.2 newId "Output")
        g).nodes = g.nodes := by
  intro pre
  induction pre with
  | nil => intro g; rfl
  | cons tp pre ih =>
    intro g
    rw [List.foldl_cons, ih]
    rfl

theorem applyPre_inputNode_not_mem (newId : Nat) :
    ∀ (pre : List (Nat × String)) (g : NodeGraph) (t : Nat) (p : String),
      (∀ tp ∈ pre, ¬(t = tp.1 ∧ p = tp.2)) →
      inputNode
        (pre.foldl (fun g tp => setInputNode g tp.1 tp.2 newId "Output") g)
        t p = inputNode g t p := by
  intro pre
  induction pre with
  | nil => intro g t p _; rfl
  | cons tp pre ih =>
    intro g t p hnm
    rw [List.foldl_cons, ih _ t p
      (fun tp2 h => hnm tp2 (List.mem_cons_of_mem _ h))]
    exact inputNode_setInputNode_other g t tp.1 p tp.2 newId "Output"
      (hnm tp (List.mem_cons_self _ _))

theorem applyPre_inputNode_mem (newId : Nat) (pre : List (Nat × String))
    (g : NodeGraph) (t : Nat) (p : String) (hmem : (t, p) ∈ pre) :
    inputNode
      (pre.foldl (fun g tp => setInputNode g tp.1 tp.2 newId "Output") g)
      t p = some (newId, "Output") := by
  have h := connectLoop_mem (fun _ _ => none) "c" "o" newId pre g t p hmem
    (fun tp _ => rfl)
  rw [connectLoop_trivial] at h
  exact h

theorem findNode_setInputNode (g : NodeGraph) (t : Nat) (p : String)
    (s : Nat) (sp : String) (x : Nat) :
    findNode (setInputNode g t p s sp) x = findNode g x := rfl

theorem paint_reset_spec (oracle : Nat → String → Option String)
    (g : NodeGraph) (nid : Nat) (n : Node)
    (size depth fillColor csConfig content : Nat)
    (hwf : Wf g)
    (hfind : findNode g nid = some n)
    (hpay : n.payload = Payload.paint size depth fillColor csConfig content)
    (hok : ∀ tp ∈ outputNodes g nid "Output", oracle tp.1 tp.2 = none) :
    (PaintAction.reset oracle g ⟨nid⟩).2.2 = none ∧
    (PaintAction.reset oracle g ⟨nid⟩).2.1 = ⟨g.fresh⟩ ∧
    findNode (PaintAction.reset oracle g ⟨nid⟩).1 g.fresh =
      some { nid := g.fresh, name := n.name, typeID := paintTypeID,
             pos := n.pos,
             payload := Payload.paint size depth fillColor csConfig 0 } ∧
    findNode (PaintAction.reset oracle g ⟨nid⟩).1 nid = none ∧
    ∀ tp ∈ outputNodes g nid "Output",
      inputNode (PaintAction.reset oracle g ⟨nid⟩).1 tp.1 tp.2 =
        some (g.fresh, "Output") := by
  have hnmem : n ∈ g.nodes := List.mem_of_find?_eq_some hfind
  have hnid : n.nid = nid := by
    have h2 := List.find?_some hfind
    simpa using h2
  have hlt : nid < g.fresh := hnid ▸ hwf.1 n hnmem
  have hne : g.fresh ≠ nid := by omega
  have hfindNew := paint_resetGraphMid_findNew g nid n
    size depth fillColor csConfig hwf.1 hne
  have hset : PaintAction.set_paint_node
      (PaintAction.resetGraphMid g nid n size depth fillColor csConfig)
      ⟨nid⟩ g.fresh = Except.ok ⟨g.fresh⟩ := by
    unfold PaintAction.set_paint_node
    rw [hfindNew]
    simp
  have hr : PaintAction.reset oracle g ⟨nid⟩ =
      ((connectLoop oracle "PaintAction" n.name g.fresh
          (PaintAction.resetGraphMid g nid n size depth fillColor csConfig)
          (outputNodes g nid "Output")).1,
       ⟨g.fresh⟩,
       (connectLoop oracle "PaintAction" n.name g.fresh
          (PaintAction.resetGraphMid g nid n size depth fillColor csConfig)
          (outputNodes g nid "Output")).2) := by
    simp only [PaintAction.reset, hfind, hpay, hset]
  rw [hr]
  have hnodes := connectLoop_nodes oracle "PaintAction" n.name g.fresh
    (outputNodes g nid "Output")
    (PaintAction.resetGraphMid g nid n size depth fillColor csConfig)
  refine ⟨connectLoop_all_ok _ _ _ _ _ _ hok, rfl, ?_, ?_, ?_⟩
  · rw [findNode_eq_of_nodes_eq _
      (PaintAction.resetGraphMid g nid n size depth fillColor csConfig)
      g.fresh hnodes]
    exact hfindNew
  · rw [findNode_eq_of_nodes_eq _
      (PaintAction.resetGraphMid g nid n size depth fillColor csConfig)
      nid hnodes]
    exact paint_resetGraphMid_findDel g nid n size depth fillColor csConfig
  · intro tp htp
    exact connectLoop_mem oracle "PaintAction" n.name g.fresh _ _ tp.1 tp.2
      htp hok

theorem chan_reset_spec (oracle : Nat → String → Option String)
    (g : NodeGraph) (nid : Nat) (n : Node) (ch : Channel)
    (chn : Option Channel)
    (hwf : Wf g)
    (hfind : findNode g nid = some n)
    (hok : ∀ tp ∈ outputNodes g nid "Output", oracle tp.1 tp.2 = none)
    (hino : oracle g.fresh "Input" = none) :
    (ChannelAction.reset oracle g ⟨nid, ch, chn⟩).2.2 = none ∧
    (ChannelAction.reset oracle g ⟨nid, ch, chn⟩).2.1 =
      ⟨g.fresh, ch, some
        { cid := g.fresh + 1, width := ch.width, height := ch.height,
          depth := ch.depth, csConfig := ch.csConfig,
          scsConfig := ch.scsConfig, locked := ch.locked, content := 0 }⟩ ∧
    findNode (ChannelAction.reset oracle g ⟨nid, ch, chn⟩).1 g.fresh =
      some { nid := g.fresh, name := n.name, typeID := channelTypeID,
             pos := n.pos,
             payload := Payload.channel
               { cid := g.fresh + 1, width := ch.width, height := ch.height,
                 depth := ch.depth, csConfig := ch.csConfig,
                 scsConfig := ch.scsConfig, locked := ch.locked,
                 content := 0 } } ∧
    findNode (ChannelAction.reset oracle g ⟨nid, ch, chn⟩).1 nid = none ∧
    (∀ tp ∈ outputNodes g nid "Output",
      inputNode (ChannelAction.reset oracle g ⟨nid, ch, chn⟩).1 tp.1 tp.2 =
        some (g.fresh, "Output")) ∧
    (∀ s : Nat, ∀ sp : String, inputNode g nid "Input" = some (s, sp) →
      inputNode (ChannelAction.reset oracle g ⟨nid, ch, chn⟩).1 g.fresh
        "Input" = some (s, sp)) := by
  have hnmem : n ∈ g.nodes := List.mem_of_find?_eq_some hfind
  have hnid : n.nid = nid := by
    have h2 := List.find?_some hfind
    simpa using h2
  have hlt : nid < g.fresh := hnid ▸ hwf.1 n hnmem
  have hne : g.fresh ≠ nid := by omega
  have hfindNew := chan_resetGraphMid_findNew g nid n ch hwf.1 hne
  have hset : ChannelAction.set_channel_node
      (ChannelAction.resetGraphMid g nid n ch) ⟨nid, ch, chn⟩ g.fresh =
      Except.ok ⟨g.fresh, ch, some
        { cid := g.fresh + 1, width := ch.width, height := ch.height,
          depth := ch.depth, csConfig := ch.csConfig,
          scsConfig := ch.scsConfig, locked := ch.locked,
          content := 0 }⟩ := by
    unfold ChannelAction.set_channel_node
    rw [hfindNew]
    simp [Node.channelOf]
  have hcl : connectLoop oracle "ChannelAction" n.name g.fresh
      (ChannelAction.resetGraphMid g nid n ch)
      (outputNodes g nid "Output") =
      ((connectLoop oracle "ChannelAction" n.name g.fresh
        (ChannelAction.resetGraphMid g nid n ch)
        (outputNodes g nid "Output")).1, none) := by
    apply Prod.ext
    · rfl
    · exact connectLoop_all_ok _ _ _ _ _ _ hok
  have hnodes := connectLoop_nodes oracle "ChannelAction" n.name g.fresh
    (outputNodes g nid "Output") (ChannelAction.resetGraphMid g nid n ch)
  have hC6 : findNode (connectLoop oracle "ChannelAction" n.name g.fresh
      (ChannelAction.resetGraphMid g nid n ch)
      (outputNodes g nid "Output")).1 g.fresh =
      some { nid := g.fresh, name := n.name, typeID := channelTypeID,
             pos := n.pos,
             payload := Payload.channel
               { cid := g.fresh + 1, width := ch.width, height := ch.height,
                 depth := ch.depth, csConfig := ch.csConfig,
                 scsConfig := ch.scsConfig, locked := ch.locked,
                 content := 0 } } := by
    rw [findNode_eq_of_nodes_eq _ (ChannelAction.resetGraphMid g nid n ch)
      g.fresh hnodes]
    exact hfindNew
  have hD6 : findNode (connectLoop oracle "ChannelAction" n.name g.fresh
      (ChannelAction.resetGraphMid g nid n ch)
      (outputNodes g nid "Output")).1 nid = none := by
    rw [findNode_eq_of_nodes_eq _ (ChannelAction.resetGraphMid g nid n ch)
      nid hnodes]
    exact chan_resetGraphMid_findDel g nid n ch
  have hE6 : ∀ tp ∈ outputNodes g nid "Output",
      inputNode (connectLoop oracle "ChannelAction" n.name g.fresh
        (ChannelAction.resetGraphMid g nid n ch)
        (outputNodes g nid "Output")).1 tp.1 tp.2 =
        some (g.fresh, "Output") := by
    intro tp htp
    exact connectLoop_mem oracle "ChannelAction" n.name g.fresh _ _ tp.1 tp.2
      htp hok
  cases hic : inputNode g nid "Input" with
  | none =>
    have hr : ChannelAction.reset oracle g ⟨nid, ch, chn⟩ =
        ((connectLoop oracle "ChannelAction" n.name g.fresh
          (ChannelAction.resetGraphMid g nid n ch)
          (outputNodes g nid "Output")).1,
         ⟨g.fresh, ch, some
           { cid := g.fresh + 1, width := ch.width, height := ch.height,
             depth := ch.depth, csConfig := ch.csConfig,
             scsConfig := ch.scsConfig, locked := ch.locked,
             content := 0 }⟩, none) := by
      simp only [ChannelAction.reset, hfind, hset]
      rw [hcl]
      simp only [hic]
    rw [hr]
    refine ⟨rfl, rfl, hC6, hD6, hE6, ?_⟩
    intro s sp hcon
    exact absurd hcon (by simp)
  | some sconn =>
    have hr : ChannelAction.reset oracle g ⟨nid, ch, chn⟩ =
        (setInputNode (connectLoop oracle "ChannelAction" n.name g.fresh
            (ChannelAction.resetGraphMid g nid n ch)
            (outputNodes g nid "Output")).1 g.fresh "Input" sconn.1 sconn.2,
         ⟨g.fresh, ch, some
           { cid := g.fresh + 1, width := ch.width, height := ch.height,
             depth := ch.depth, csConfig := ch.csConfig,
             scsConfig := ch.scsConfig, locked := ch.locked,
             content := 0 }⟩, none) := by
      simp only [ChannelAction.reset, hfind, hset]
      rw [hcl]
      simp only [hic, hino]
    rw [hr]
    refine ⟨rfl, rfl, ?_, ?_, ?_, ?_⟩
    · rw [findNode_setInputNode]
      exact hC6
    · rw [findNode_setInputNode]
      exact hD6
    · intro tp htp
      have htlt : tp.1 < g.fresh :=
        outputNodes_dst_lt g hwf nid "Output" tp htp
      rw [inputNode_setInputNode_other _ tp.1 g.fresh tp.2 "Input" sconn.1
        sconn.2 (fun hc => by omega)]
      exact hE6 tp htp
    · intro s sp hcon
      have hs : sconn = (s, sp) := by
        injection hcon
      rw [hs]
      exact inputNode_setInputNode_self _ g.fresh "Input" s sp

theorem paint_reset_fail_spec (oracle : Nat → String → Option String)
    (g : NodeGraph) (nid : Nat) (n : Node)
    (size depth fillColor csConfig content : Nat)
    (pre post : List (Nat × String)) (tf : Nat) (pf excp : String)
    (hwf : Wf g)
    (hfind : findNode g nid = some n)
    (hpay : n.payload = Payload.paint size depth fillColor csConfig content)
    (hconns : outputNodes g nid "Output" = pre ++ (tf, pf) :: post)
    (hpre : ∀ tp ∈ pre, oracle tp.1 tp.2 = none)
    (hfail : oracle tf pf = some excp) :
    (PaintAction.reset oracle g ⟨nid⟩).2.2 =
      some (connectErrMsg "PaintAction" n.name tf pf excp) ∧
    findNode (PaintAction.reset oracle g ⟨nid⟩).1 nid = none ∧
    findNode (PaintAction.reset oracle g ⟨nid⟩).1 g.fresh =
      some { nid := g.fresh, name := n.name, typeID := paintTypeID,
             pos := n.pos,
             payload := Payload.paint size depth fillColor csConfig 0 } ∧
    (∀ tp ∈ pre,
      inputNode (PaintAction.reset oracle g ⟨nid⟩).1 tp.1 tp.2 =
        some (g.fresh, "Output")) ∧
    (∀ tp ∈ (tf, pf) :: post,
      inputNode (PaintAction.reset oracle g ⟨nid⟩).1 tp.1 tp.2 = none) := by
  have hnmem : n ∈ g.nodes := List.mem_of_find?_eq_some hfind
  have hnid : n.nid = nid := by
    have h2 := List.find?_some hfind
    simpa using h2
  have hlt : nid < g.fresh := hnid ▸ hwf.1 n hnmem
  have hne : g.fresh ≠ nid := by omega
  have hfindNew := paint_resetGraphMid_findNew g nid n
    size depth fillColor csConfig hwf.1 hne
  have hset : PaintAction.set_paint_node
      (PaintAction.resetGraphMid g nid n size depth fillColor csConfig)
      ⟨nid⟩ g.fresh = Except.ok ⟨g.fresh⟩ := by
    unfold PaintAction.set_paint_node
    rw [hfindNew]
    simp
  have hclfail := connectLoop_fail oracle "PaintAction" n.name g.fresh tf pf
    excp pre post
    (PaintAction.resetGraphMid g nid n size depth fillColor csConfig)
    hpre hfail
  have hr : PaintAction.reset oracle g ⟨nid⟩ =
      (pre.foldl (fun g2 tp => setInputNode g2 tp.1 tp.2 g.fresh "Output")
        (PaintAction.resetGraphMid g nid n size depth fillColor csConfig),
       ⟨g.fresh⟩,
       some (connectErrMsg "PaintAction" n.name tf pf excp)) := by
    simp only [PaintAction.reset, hfind, hpay, hset, hconns, hclfail]
  rw [hr]
  have hnodes := applyPre_nodes g.fresh pre
    (PaintAction.resetGraphMid g nid n size depth fillColor csConfig)
  have hnodup : (pre ++ (tf, pf) :: post).Nodup := by
    rw [← hconns]
    exact outputNodes_nodup g hwf nid "Output"
  have hdisj := List.disjoint_of_nodup_append hnodup
  refine ⟨rfl, ?_, ?_, ?_, ?_⟩
  · rw [findNode_eq_of_nodes_eq _
      (PaintAction.resetGraphMid g nid n size depth fillColor csConfig)
      nid hnodes]
    exact paint_resetGraphMid_findDel g nid n size depth fillColor csConfig
  · rw [findNode_eq_of_nodes_eq _
      (PaintAction.resetGraphMid g nid n size depth fillColor csConfig)
      g.fresh hnodes]
    exact hfindNew
  · intro tp htp
    exact applyPre_inputNode_mem g.fresh pre _ tp.1 tp.2 htp
  · intro tp htp
    have hnot_pre : tp ∉ pre := by
      intro hc
      exact (hdisj hc) htp
    rw [applyPre_inputNode_not_mem g.fresh pre _ tp.1 tp.2 (by
      intro tp2 htp2 hc
      apply hnot_pre
      have : tp = tp2 := by
        obtain ⟨h1, h2⟩ := hc
        rcases tp with ⟨x, y⟩
        rcases tp2 with ⟨x2, y2⟩
        simp only at h1 h2
        rw [h1, h2]
      rw [this]
      exact htp2)]
    have hmemconns : tp ∈ outputNodes g nid "Output" := by
      rw [hconns]
      exact List.mem_append_right pre htp
    rw [inputNode_eq_of_edges_eq _ (deleteNode g nid) tp.1 tp.2
      (paint_resetGraphMid_edges g nid n size depth fillColor csConfig)]
    exact inputNode_deleteNode_output_none g hwf nid tp.1 tp.2 hmemconns

theorem chan_reset_fail_spec (oracle : Nat → String → Option String)
    (g : NodeGraph) (nid : Nat) (n : Node) (ch : Channel)
    (chn : Option Channel)
    (pre post : List (Nat × String)) (tf : Nat) (pf excp : String)
    (hwf : Wf g)
    (hfind : findNode g nid = some n)
    (hconns : outputNodes g nid "Output" = pre ++ (tf, pf) :: post)
    (hpre : ∀ tp ∈ pre, oracle tp.1 tp.2 = none)
    (hfail : oracle tf pf = some excp) :
    (ChannelAction.reset oracle g ⟨nid, ch, chn⟩).2.2 =
      some (connectErrMsg "ChannelAction" n.name tf pf excp) ∧
    findNode (ChannelAction.reset oracle g ⟨nid, ch, chn⟩).1 nid = none ∧
    findNode (ChannelAction.reset oracle g ⟨nid, ch, chn⟩).1 g.fresh =
      some { nid := g.fresh, name := n.name, typeID := channelTypeID,
             pos := n.pos,
             payload := Payload.channel
               { cid := g.fresh + 1, width := ch.width, height := ch.height,
                 depth := ch.depth, csConfig := ch.csConfig,
                 scsConfig := ch.scsConfig, locked := ch.locked,
                 content := 0 } } ∧
    (∀ tp ∈ pre,
      inputNode (ChannelAction.reset oracle g ⟨nid, ch, chn⟩).1 tp.1 tp.2 =
        some (g.fresh, "Output")) ∧
    (∀ tp ∈ (tf, pf) :: post,
      inputNode (ChannelAction.reset oracle g ⟨nid, ch, chn⟩).1 tp.1 tp.2 =
        none) ∧
    inputNode (ChannelAction.reset oracle g ⟨nid, ch, chn⟩).1 g.fresh
      "Input" = none := by
  have hnmem : n ∈ g.nodes := List.mem_of_find?_eq_some hfind
  have hnid : n.nid = nid := by
    have h2 := List.find?_some hfind
    simpa using h2
  have hlt : nid < g.fresh := hnid ▸ hwf.1 n hnmem
  have hne : g.fresh ≠ nid := by omega
  have hfindNew := chan_resetGraphMid_findNew g nid n ch hwf.1 hne
  have hset : ChannelAction.set_channel_node
      (ChannelAction.resetGraphMid g nid n ch) ⟨nid, ch, chn⟩ g.fresh =
      Except.ok ⟨g.fresh, ch, some
        { cid := g.fresh + 1, width := ch.width, height := ch.height,
          depth := ch.depth, csConfig := ch.csConfig,
          scsConfig := ch.scsConfig, locked := ch.locked,
          content := 0 }⟩ := by
    unfold ChannelAction.set_channel_node
    rw [hfindNew]
    simp [Node.channelOf]
  have hclfail := connectLoop_fail oracle "ChannelAction" n.name g.fresh tf
    pf excp pre post (ChannelAction.resetGraphMid g nid n ch) hpre hfail
  have hr : ChannelAction.reset oracle g ⟨nid, ch, chn⟩ =
      (pre.foldl (fun g2 tp => setInputNode g2 tp.1 tp.2 g.fresh "Output")
        (ChannelAction.resetGraphMid g nid n ch),
       ⟨g.fresh, ch, some
         { cid := g.fresh + 1, width := ch.width, height := ch.height,
           depth := ch.depth, csConfig := ch.csConfig,
           scsConfig := ch.scsConfig, locked := ch.locked, content := 0 }⟩,
       some (connectErrMsg "ChannelAction" n.name tf pf excp)) := by
    simp only [ChannelAction.reset, hfind, hset, hconns, hclfail]
  rw [hr]
  have hnodes := applyPre_nodes g.fresh pre
    (ChannelAction.resetGraphMid g nid n ch)
  have hnodup : (pre ++ (tf, pf) :: post).Nodup := by
    rw [← hconns]
    exact outputNodes_nodup g hwf nid "Output"
  have hdisj := List.disjoint_of_nodup_append hnodup
  have hprelt : ∀ tp ∈ pre, tp.1 < g.fresh := by
    intro tp htp
    refine outputNodes_dst_lt g hwf nid "Output" tp ?_
    rw [hconns]
    exact List.mem_append_left _ htp
  refine ⟨rfl, ?_, ?_, ?_, ?_, ?_⟩
  · rw [findNode_eq_of_nodes_eq _ (ChannelAction.resetGraphMid g nid n ch)
      nid hnodes]
    exact chan_resetGraphMid_findDel g nid n ch
  · rw [findNode_eq_of_nodes_eq _ (ChannelAction.resetGraphMid g nid n ch)
      g.fresh hnodes]
    exact hfindNew
  · intro tp htp
    exact applyPre_inputNode_mem g.fresh pre _ tp.1 tp.2 htp
  · intro tp htp
    have hnot_pre : tp ∉ pre := by
      intro hc
      exact (hdisj hc) htp
    rw [applyPre_inputNode_not_mem g.fresh pre _ tp.1 tp.2 (by
      intro tp2 htp2 hc
      apply hnot_pre
      have heq2 : tp = tp2 := by
        obtain ⟨h1, h2⟩ := hc
        rcases tp with ⟨x, y⟩
        rcases tp2 with ⟨x2, y2⟩
        simp only at h1 h2
        rw [h1, h2]
      rw [heq2]
      exact htp2)]
    have hmemconns : tp ∈ outputNodes g nid "Output" := by
      rw [hconns]
      exact List.mem_append_right pre htp
    rw [inputNode_eq_of_edges_eq _ (deleteNode g nid) tp.1 tp.2
      (chan_resetGraphMid_edges g nid n ch)]
    exact inputNode_deleteNode_output_none g hwf nid tp.1 tp.2 hmemconns
  · rw [applyPre_inputNode_not_mem g.fresh pre _ g.fresh "Input" (by
      intro tp2 htp2 hc
      have h2 := hprelt tp2 htp2
      omega)]
    rw [inputNode_eq_of_edges_eq _ (deleteNode g nid) g.fresh "Input"
      (chan_resetGraphMid_edges g nid n ch)]
    exact inputNode_deleteNode_fresh_none g hwf nid "Input"

theorem mainLoop_append (oracle : Nat → String → Option String) :
    ∀ (xs ys : List Nat) (g : NodeGraph),
      (mainLoop oracle g xs).2 = none →
      mainLoop oracle g (xs ++ ys) =
        mainLoop oracle (mainLoop oracle g xs).1 ys := by
  intro xs
  induction xs with
  | nil => intro ys g _; rfl
  | cons nid xs ih =>
    intro ys g h2
    rw [List.cons_append]
    simp only [mainLoop] at h2 ⊢
    cases hf : findNode g nid with
    | none =>
      rw [hf] at h2
      simp at h2
    | some n =>
      rw [hf] at h2
      by_cases hc : n.typeID = channelTypeID
      · simp only [hc, beq_self_eq_true, if_true, if_pos] at h2 ⊢
        cases hmk : ChannelAction.mk0 g nid with
        | error e =>
          rw [hmk] at h2
          simp at h2
        | ok a =>
          rw [hmk] at h2
          simp only [] at h2 ⊢
          rcases hres : ChannelAction.reset oracle g a with ⟨g2, a2, err⟩
          rw [hres] at h2
          cases err with
          | some e => simp at h2
          | none =>
            simp only [] at h2
            exact ih ys g2 h2
      · have hc2 : (n.typeID == channelTypeID) = false := by
          simp [hc]
        simp only [hc2, hc, Bool.false_eq_true, if_false] at h2 ⊢
        by_cases hp : n.typeID = paintTypeID
        · simp only [hp, beq_self_eq_true, if_true] at h2 ⊢
          cases hmk : PaintAction.mk0 g nid with
          | error e =>
            rw [hmk] at h2
            simp at h2
          | ok a =>
            rw [hmk] at h2
            simp only [] at h2 ⊢
            rcases hres : PaintAction.reset oracle g a with ⟨g2, a2, err⟩
            rw [hres] at h2
            cases err with
            | some e => simp at h2
            | none =>
              simp only [] at h2
              exact ih ys g2 h2
        · have hp2 : (n.typeID == paintTypeID) = false := by
            simp [hp]
          simp only [hp2, hp, Bool.false_eq_true, if_false] at h2
          simp at h2

theorem mainLoop_stop (oracle : Nat → String → Option String)
    (g : NodeGraph) (bad : Nat) (post : List Nat) (n : Node)
    (hfind : findNode g bad = some n)
    (hty1 : n.typeID ≠ channelTypeID) (hty2 : n.typeID ≠ paintTypeID) :
    mainLoop oracle g (bad :: post) = (g, some (mainTypeErrMsg n.name)) := by
  simp only [mainLoop, hfind]
  have h1 : (n.typeID == channelTypeID) = false := by simp [hty1]
  have h2 : (n.typeID == paintTypeID) = false := by simp [hty2]
  simp [h1, h2]

/-- C7: `main` makes a single pass over the selection in order: a node of
typeID `MRI__System_Shader_Input` is reset through `ChannelAction`, one of
typeID `MRI_Misc_Channel_Input` through `PaintAction`, and any other
typeID raises TypeError on the spot — the resets already performed stand
(the graph is the one reached after the processed prefix) and the
remaining nodes are never processed. -/
theorem main_single_pass_dispatch (oracle : Nat → String → Option String)
    (g : NodeGraph) (pre post : List Nat) (bad : Nat) (n : Node)
    (hpre : (mainLoop oracle g pre).2 = none)
    (hfind : findNode (mainLoop oracle g pre).1 bad = some n)
    (hty1 : n.typeID ≠ channelTypeID)
    (hty2 : n.typeID ≠ paintTypeID) :
    main oracle g (pre ++ bad :: post) =
      ((mainLoop oracle g pre).1, some (mainTypeErrMsg n.name)) ∧
    (∀ (g2 g3 : NodeGraph) (nid2 : Nat) (n2 : Node) (a2 a3 : ChannelAction)
      (rest : List Nat),
      findNode g2 nid2 = some n2 → n2.typeID = channelTypeID →
      ChannelAction.mk0 g2 nid2 = Except.ok a2 →
      ChannelAction.reset oracle g2 a2 = (g3, a3, none) →
      mainLoop oracle g2 (nid2 :: rest) = mainLoop oracle g3 rest) ∧
    (∀ (g2 g3 : NodeGraph) (nid2 : Nat) (n2 : Node) (a2 a3 : PaintAction)
      (rest : List Nat),
      findNode g2 nid2 = some n2 → n2.typeID = paintTypeID →
      PaintAction.mk0 g2 nid2 = Except.ok a2 →
      PaintAction.reset oracle g2 a2 = (g3, a3, none) →
      mainLoop oracle g2 (nid2 :: rest) = mainLoop oracle g3 rest) := by
  refine ⟨?_, ?_, ?_⟩
  · have hne : (pre ++ bad :: post).isEmpty = false := by
      cases pre <;> rfl
    unfold main UserSelAction_ctor
    rw [hne]
    simp only [Bool.false_eq_true, if_false]
    rw [mainLoop_append oracle pre (bad :: post) g hpre]
    exact mainLoop_stop oracle _ bad post n hfind hty1 hty2
  · intro g2 g3 nid2 n2 a2 a3 rest hf2 hty hmk2 hres2
    simp only [mainLoop, hf2, hty, beq_self_eq_true, if_true, hmk2, hres2]
  · intro g2 g3 nid2 n2 a2 a3 rest hf2 hty hmk2 hres2
    have hcne : (paintTypeID == channelTypeID) = false := by decide
    simp only [mainLoop, hf2, hty, hcne, Bool.false_eq_true, if_false,
      beq_self_eq_true, if_true, hmk2, hres2]

theorem paint_mk0_inv (g : NodeGraph) (nid : Nat) (n : Node)
    (a : PaintAction) (hfind : findNode g nid = some n)
    (hmk : PaintAction.mk0 g nid = Except.ok a) : a = ⟨nid⟩ := by
  unfold PaintAction.mk0 PaintAction.set_paint_node at hmk
  rw [hfind] at hmk
  simp only [] at hmk
  by_cases hty : (n.typeID == paintTypeID) = true
  · rw [if_pos hty] at hmk
    injection hmk with h
    exact h.symm
  · rw [if_neg hty] at hmk
    simp at hmk

theorem chan_mk0_inv (g : NodeGraph) (nid : Nat) (n : Node) (ch : Channel)
    (a : ChannelAction) (hfind : findNode g nid = some n)
    (hch : n.channelOf = some ch)
    (hmk : ChannelAction.mk0 g nid = Except.ok a) :
    a = ⟨nid, ch, some ch⟩ := by
  unfold ChannelAction.mk0 at hmk
  rw [hfind] at hmk
  simp only [] at hmk
  by_cases hty : (n.typeID == channelTypeID) = true
  · rw [if_pos hty] at hmk
    rw [hch] at hmk
    injection hmk with h
    exact h.symm
  · rw [if_neg hty] at hmk
    simp at hmk

/-- C1: after a successful `PaintAction.reset` or `ChannelAction.reset`,
every (target node, input port) pair that was fed by the original node's
"Output" port is connected to the replacement node's "Output" port, and
`ChannelAction.reset` additionally reconnects the node (and output port)
that fed the original's "Input" port to the replacement's "Input" port. -/
theorem reset_preserves_connections
    (oracleP oracleC : Nat → String → Option String)
    (gP gC : NodeGraph) (nidP nidC : Nat) (nP nC : Node)
    (size depth fillColor csConfig content : Nat) (chC : Channel)
    (aP : PaintAction) (aC : ChannelAction) (s : Nat) (sp : String)
    (hwfP : Wf gP)
    (hfindP : findNode gP nidP = some nP)
    (hpayP : nP.payload = Payload.paint size depth fillColor csConfig content)
    (hmkP : PaintAction.mk0 gP nidP = Except.ok aP)
    (hokP : ∀ tp ∈ outputNodes gP nidP "Output", oracleP tp.1 tp.2 = none)
    (hwfC : Wf gC)
    (hfindC : findNode gC nidC = some nC)
    (hchC : nC.channelOf = some chC)
    (hmkC : ChannelAction.mk0 gC nidC = Except.ok aC)
    (hokC : ∀ tp ∈ outputNodes gC nidC "Output", oracleC tp.1 tp.2 = none)
    (hinoC : oracleC gC.fresh "Input" = none)
    (hinC : inputNode gC nidC "Input" = some (s, sp)) :
    ((PaintAction.reset oracleP gP aP).2.2 = none ∧
     ∀ tp ∈ outputNodes gP nidP "Output",
       inputNode (PaintAction.reset oracleP gP aP).1 tp.1 tp.2 =
         some (gP.fresh, "Output")) ∧
    ((ChannelAction.reset oracleC gC aC).2.2 = none ∧
     (∀ tp ∈ outputNodes gC nidC "Output",
       inputNode (ChannelAction.reset oracleC gC aC).1 tp.1 tp.2 =
         some (gC.fresh, "Output")) ∧
     inputNode (ChannelAction.reset oracleC gC aC).1 gC.fresh "Input" =
       some (s, sp)) := by
  have haP := paint_mk0_inv gP nidP nP aP hfindP hmkP
  subst haP
  have haC := chan_mk0_inv gC nidC nC chC aC hfindC hchC hmkC
  subst haC
  obtain ⟨h1, h2, h3, h4, h5⟩ := paint_reset_spec oracleP gP nidP nP
    size depth fillColor csConfig content hwfP hfindP hpayP hokP
  obtain ⟨k1, k2, k3, k4, k5, k6⟩ := chan_reset_spec oracleC gC nidC nC chC
    (some chC) hwfC hfindC hokC hinoC
  exact ⟨⟨h1, h5⟩, k1, k5, k6 s sp hinC⟩

theorem reset_preserves_connections_witness :
    ((PaintAction.reset oracleNone wgPaint ⟨0⟩).2.2 = none ∧
     ∀ tp ∈ outputNodes wgPaint 0 "Output",
       inputNode (PaintAction.reset oracleNone wgPaint ⟨0⟩).1 tp.1 tp.2 =
         some (wgPaint.fresh, "Output")) ∧
    ((ChannelAction.reset oracleNone wgChan ⟨0, wch, some wch⟩).2.2 = none ∧
     (∀ tp ∈ outputNodes wgChan 0 "Output",
       inputNode
         (ChannelAction.reset oracleNone wgChan ⟨0, wch, some wch⟩).1
         tp.1 tp.2 = some (wgChan.fresh, "Output")) ∧
     inputNode (ChannelAction.reset oracleNone wgChan ⟨0, wch, some wch⟩).1
       wgChan.fresh "Input" = some (2, "Out")) :=
  reset_preserves_connections oracleNone oracleNone wgPaint wgChan 0 0
    ⟨0, "PaintMe", paintTypeID, (5, 6), Payload.paint 1024 8 2 3 7⟩
    ⟨0, "BaseColor", channelTypeID, (3, 4), Payload.channel wch⟩
    1024 8 2 3 7 wch ⟨0⟩ ⟨0, wch, some wch⟩ 2 "Out"
    (by decide) (by decide) (by decide) (by rfl) (by decide)
    (by decide) (by decide) (by decide) (by rfl) (by decide)
    (by decide) (by decide)

/-- C2: after a successful reset the replacement node carries the original
node's metadata unchanged — same name, same nodegraph position, same
size/dimensions, same bit depth, same colorspace config, and for a channel
node also the same scalar colorspace config and locked state, for a paint
node the same fill color — while the painted/stored content is blank
(`content = 0`, and the channel is a fresh host object); the original node
itself is gone and the action now holds the replacement node. -/
theorem reset_preserves_metadata
    (oracleP oracleC : Nat → String → Option String)
    (gP gC : NodeGraph) (nidP nidC : Nat) (nP nC : Node)
    (size depth fillColor csConfig content : Nat) (chC : Channel)
    (aP : PaintAction) (aC : ChannelAction)
    (hwfP : Wf gP)
    (hfindP : findNode gP nidP = some nP)
    (hpayP : nP.payload = Payload.paint size depth fillColor csConfig content)
    (hmkP : PaintAction.mk0 gP nidP = Except.ok aP)
    (hokP : ∀ tp ∈ outputNodes gP nidP "Output", oracleP tp.1 tp.2 = none)
    (hwfC : Wf gC)
    (hfindC : findNode gC nidC = some nC)
    (hchC : nC.channelOf = some chC)
    (hmkC : ChannelAction.mk0 gC nidC = Except.ok aC)
    (hokC : ∀ tp ∈ outputNodes gC nidC "Output", oracleC tp.1 tp.2 = none)
    (hinoC : oracleC gC.fresh "Input" = none) :
    ((PaintAction.reset oracleP gP aP).2.2 = none ∧
     (PaintAction.reset oracleP gP aP).2.1 = ⟨gP.fresh⟩ ∧
     findNode (PaintAction.reset oracleP gP aP).1 gP.fresh =
       some { nid := gP.fresh, name := nP.name, typeID := paintTypeID,
              pos := nP.pos,
              payload := Payload.paint size depth fillColor csConfig 0 } ∧
     findNode (PaintAction.reset oracleP gP aP).1 nidP = none) ∧
    ((ChannelAction.reset oracleC gC aC).2.2 = none ∧
     (ChannelAction.reset oracleC gC aC).2.1.channel_node = gC.fresh ∧
     findNode (ChannelAction.reset oracleC gC aC).1 gC.fresh =
       some { nid := gC.fresh, name := nC.name, typeID := channelTypeID,
              pos := nC.pos,
              payload := Payload.channel
                { cid := gC.fresh + 1, width := chC.width,
                  height := chC.height, depth := chC.depth,
                  csConfig := chC.csConfig, scsConfig := chC.scsConfig,
                  locked := chC.locked, content := 0 } } ∧
     findNode (ChannelAction.reset oracleC gC aC).1 nidC = none) := by
  have haP := paint_mk0_inv gP nidP nP aP hfindP hmkP
  subst haP
  have haC := chan_mk0_inv gC nidC nC chC aC hfindC hchC hmkC
  subst haC
  obtain ⟨h1, h2, h3, h4, h5⟩ := paint_reset_spec oracleP gP nidP nP
    size depth fillColor csConfig content hwfP hfindP hpayP hokP
  obtain ⟨k1, k2, k3, k4, k5, k6⟩ := chan_reset_spec oracleC gC nidC nC chC
    (some chC) hwfC hfindC hokC hinoC
  refine ⟨⟨h1, h2, h3, h4⟩, k1, ?_, k3, k4⟩
  rw [k2]

theorem reset_preserves_metadata_witness :
    ((PaintAction.reset oracleNone wgPaint ⟨0⟩).2.2 = none ∧
     (PaintAction.reset oracleNone wgPaint ⟨0⟩).2.1 = ⟨wgPaint.fresh⟩ ∧
     findNode (PaintAction.reset oracleNone wgPaint ⟨0⟩).1 wgPaint.fresh =
       some { nid := wgPaint.fresh, name := "PaintMe", typeID := paintTypeID,
              pos := (5, 6), payload := Payload.paint 1024 8 2 3 0 } ∧
     findNode (PaintAction.reset oracleNone wgPaint ⟨0⟩).1 0 = none) ∧
    ((ChannelAction.reset oracleNone wgChan ⟨0, wch, some wch⟩).2.2 = none ∧
     (ChannelAction.reset oracleNone wgChan
       ⟨0, wch, some wch⟩).2.1.channel_node = wgChan.fresh ∧
     findNode (ChannelAction.reset oracleNone wgChan ⟨0, wch, some wch⟩).1
       wgChan.fresh =
       some { nid := wgChan.fresh, name := "BaseColor",
              typeID := channelTypeID, pos := (3, 4),
              payload := Payload.channel
                { cid := wgChan.fresh + 1, width := wch.width,
                  height := wch.height, depth := wch.depth,
                  csConfig := wch.csConfig, scsConfig := wch.scsConfig,
                  locked := wch.locked, content := 0 } } ∧
     findNode (ChannelAction.reset oracleNone wgChan
       ⟨0, wch, some wch⟩).1 0 = none) :=
  reset_preserves_metadata oracleNone oracleNone wgPaint wgChan 0 0
    ⟨0, "PaintMe", paintTypeID, (5, 6), Payload.paint 1024 8 2 3 7⟩
    ⟨0, "BaseColor", channelTypeID, (3, 4), Payload.channel wch⟩
    1024 8 2 3 7 wch ⟨0⟩ ⟨0, wch, some wch⟩
    (by decide) (by decide) (by decide) (by rfl) (by decide)
    (by decide) (by decide) (by decide) (by rfl) (by decide)
    (by decide)

/-- C6: when a reconnection call raises RuntimeError during
`PaintAction.reset` or `ChannelAction.reset`, the method raises a
RuntimeError wrapping the failure message and performs no recovery: the
original node stays deleted, the reconnections already made stand, and the
failing pair and every later pair of the recorded output connections are
left unconnected (for a channel node the "Input" reconnection is never
reached either). -/
theorem reset_reconnection_failure_no_recovery
    (oracleP oracleC : Nat → String → Option String)
    (gP gC : NodeGraph) (nidP nidC : Nat) (nP nC : Node)
    (size depth fillColor csConfig content : Nat) (chC : Channel)
    (aP : PaintAction) (aC : ChannelAction)
    (preP postP : List (Nat × String)) (tfP : Nat) (pfP excpP : String)
    (preC postC : List (Nat × String)) (tfC : Nat) (pfC excpC : String)
    (hwfP : Wf gP)
    (hfindP : findNode gP nidP = some nP)
    (hpayP : nP.payload = Payload.paint size depth fillColor csConfig content)
    (hmkP : PaintAction.mk0 gP nidP = Except.ok aP)
    (hconnsP : outputNodes gP nidP "Output" = preP ++ (tfP, pfP) :: postP)
    (hpreP : ∀ tp ∈ preP, oracleP tp.1 tp.2 = none)
    (hfailP : oracleP tfP pfP = some excpP)
    (hwfC : Wf gC)
    (hfindC : findNode gC nidC = some nC)
    (hchC : nC.channelOf = some chC)
    (hmkC : ChannelAction.mk0 gC nidC = Except.ok aC)
    (hconnsC : outputNodes gC nidC "Output" = preC ++ (tfC, pfC) :: postC)
    (hpreC : ∀ tp ∈ preC, oracleC tp.1 tp.2 = none)
    (hfailC : oracleC tfC pfC = some excpC) :
    ((PaintAction.reset oracleP gP aP).2.2 =
       some (connectErrMsg "PaintAction" nP.name tfP pfP excpP) ∧
     findNode (PaintAction.reset oracleP gP aP).1 nidP = none ∧
     (∀ tp ∈ preP,
       inputNode (PaintAction.reset oracleP gP aP).1 tp.1 tp.2 =
         some (gP.fresh, "Output")) ∧
     (∀ tp ∈ (tfP, pfP) :: postP,
       inputNode (PaintAction.reset oracleP gP aP).1 tp.1 tp.2 = none)) ∧
    ((ChannelAction.reset oracleC gC aC).2.2 =
       some (connectErrMsg "ChannelAction" nC.name tfC pfC excpC) ∧
     findNode (ChannelAction.reset oracleC gC aC).1 nidC = none ∧
     (∀ tp ∈ preC,
       inputNode (ChannelAction.reset oracleC gC aC).1 tp.1 tp.2 =
         some (gC.fresh, "Output")) ∧
     (∀ tp ∈ (tfC, pfC) :: postC,
       inputNode (ChannelAction.reset oracleC gC aC).1 tp.1 tp.2 = none) ∧
     inputNode (ChannelAction.reset oracleC gC aC).1 gC.fresh "Input" =
       none) := by
  have haP := paint_mk0_inv gP nidP nP aP hfindP hmkP
  subst haP
  have haC := chan_mk0_inv gC nidC nC chC aC hfindC hchC hmkC
  subst haC
  obtain ⟨h1, h2, h3, h4, h5⟩ := paint_reset_fail_spec oracleP gP nidP nP
    size depth fillColor csConfig content preP postP tfP pfP excpP
    hwfP hfindP hpayP hconnsP hpreP hfailP
  obtain ⟨k1, k2, k3, k4, k5, k6⟩ := chan_reset_fail_spec oracleC gC nidC nC
    chC (some chC) preC postC tfC pfC excpC
    hwfC hfindC hconnsC hpreC hfailC
  exact ⟨⟨h1, h2, h4, h5⟩, k1, k2, k4, k5, k6⟩

theorem reset_reconnection_failure_no_recovery_witness :
    ((PaintAction.reset oracleFail2 wgPaint ⟨0⟩).2.2 =
       some (connectErrMsg "PaintAction" "PaintMe" 2 "In2" "boom") ∧
     findNode (PaintAction.reset oracleFail2 wgPaint ⟨0⟩).1 0 = none ∧
     (∀ tp ∈ [((1 : Nat), "In1")],
       inputNode (PaintAction.reset oracleFail2 wgPaint ⟨0⟩).1 tp.1 tp.2 =
         some (wgPaint.fresh, "Output")) ∧
     (∀ tp ∈ (((2 : Nat), "In2") :: []),
       inputNode (PaintAction.reset oracleFail2 wgPaint ⟨0⟩).1 tp.1 tp.2 =
         none)) ∧
    ((ChannelAction.reset oracleFail2 wgChan ⟨0, wch, some wch⟩).2.2 =
       some (connectErrMsg "ChannelAction" "BaseColor" 2 "PortB" "boom") ∧
     findNode (ChannelAction.reset oracleFail2 wgChan
       ⟨0, wch, some wch⟩).1 0 = none ∧
     (∀ tp ∈ [((1 : Nat), "PortA")],
       inputNode (ChannelAction.reset oracleFail2 wgChan
         ⟨0, wch, some wch⟩).1 tp.1 tp.2 = some (wgChan.fresh, "Output")) ∧
     (∀ tp ∈ (((2 : Nat), "PortB") :: []),
       inputNode (ChannelAction.reset oracleFail2 wgChan
         ⟨0, wch, some wch⟩).1 tp.1 tp.2 = none) ∧
     inputNode (ChannelAction.reset oracleFail2 wgChan
       ⟨0, wch, some wch⟩).1 wgChan.fresh "Input" = none) :=
  reset_reconnection_failure_no_recovery oracleFail2 oracleFail2
    wgPaint wgChan 0 0
    ⟨0, "PaintMe", paintTypeID, (5, 6), Payload.paint 1024 8 2 3 7⟩
    ⟨0, "BaseColor", channelTypeID, (3, 4), Payload.channel wch⟩
    1024 8 2 3 7 wch ⟨0⟩ ⟨0, wch, some wch⟩
    [(1, "In1")] [] 2 "In2" "boom"
    [(1, "PortA")] [] 2 "PortB" "boom"
    (by decide) (by decide) (by decide) (by rfl) (by decide)
    (by decide) (by decide)
    (by decide) (by decide) (by decide) (by rfl) (by decide)
    (by decide) (by decide)

theorem main_single_pass_dispatch_witness :
    main oracleNone wgMain ([0] ++ 1 :: [5]) =
      ((mainLoop oracleNone wgMain [0]).1,
       some (mainTypeErrMsg "Mystery")) ∧
    (∀ (g2 g3 : NodeGraph) (nid2 : Nat) (n2 : Node) (a2 a3 : ChannelAction)
      (rest : List Nat),
      findNode g2 nid2 = some n2 → n2.typeID = channelTypeID →
      ChannelAction.mk0 g2 nid2 = Except.ok a2 →
      ChannelAction.reset oracleNone g2 a2 = (g3, a3, none) →
      mainLoop oracleNone g2 (nid2 :: rest) = mainLoop oracleNone g3 rest) ∧
    (∀ (g2 g3 : NodeGraph) (nid2 : Nat) (n2 : Node) (a2 a3 : PaintAction)
      (rest : List Nat),
      findNode g2 nid2 = some n2 → n2.typeID = paintTypeID →
      PaintAction.mk0 g2 nid2 = Except.ok a2 →
      PaintAction.reset oracleNone g2 a2 = (g3, a3, none) →
      mainLoop oracleNone g2 (nid2 :: rest) = mainLoop oracleNone g3 rest) :=
  main_single_pass_dispatch oracleNone wgMain [0] [5] 1
    ⟨1, "Mystery", "MRI_Group", (1, 0), Payload.other⟩
    (by decide) (by decide) (by decide) (by decide)

/-- C10 (code bug evidence): running `ChannelAction.reset` on a concrete
graph succeeds and moves `channel_node` to the replacement node, whose
channel is the fresh object `wNewCh`; yet the action's `channel` attribute
still holds the deleted original's channel `wch`, because the
`channel_node` property setter assigns the misspelled attribute
`channnel` instead of `channel`. -/
theorem channelAction_channel_attribute_stale_after_reset :
    ChannelAction.mk0 wgChan 0 = Except.ok ⟨0, wch, some wch⟩ ∧
    (ChannelAction.reset oracleNone wgChan ⟨0, wch, some wch⟩).2.2 = none ∧
    (ChannelAction.reset oracleNone wgChan
      ⟨0, wch, some wch⟩).2.1.channel_node = 3 ∧
    (findNode (ChannelAction.reset oracleNone wgChan
      ⟨0, wch, some wch⟩).1 3).map Node.channelOf = some (some wNewCh) ∧
    (ChannelAction.reset oracleNone wgChan ⟨0, wch, some wch⟩).2.1.channel =
      wch ∧
    wch ≠ wNewCh := by
  refine ⟨by rfl, ?_, ?_, ?_, ?_, ?_⟩ <;> decide

end PaintReplace

/-- C8: the `UserSelAction` constructors of `mari_group_expose` and
`mari_paint_replace` raise RuntimeError exactly when the current node
selection is empty, before touching anything else; with a non-empty
selection they do not raise. -/
theorem userSelAction_ctor_raises_iff_empty_selection :
    ∀ (selG : List GroupExpose.GNode) (selP : List Nat),
      (GroupExpose.UserSelAction_ctor selG =
          Except.error "Please select at least one node." ↔ selG = []) ∧
      (PaintReplace.UserSelAction_ctor selP =
          Except.error "Please select at least one node." ↔ selP = []) := by
  intro selG selP
  constructor
  · unfold GroupExpose.UserSelAction_ctor
    cases selG <;> simp
  · unfold PaintReplace.UserSelAction_ctor
    cases selP <;> simp
